import Mathlib

/-!
Verification of the negotiation engine of the mess-coupon automation bot.

This file shallowly embeds the `ConversationManager` state machine
(`src/conversation/stateMachine.ts`) and the human-confirmation checkpoint
machinery of `src/index.ts` as pure Lean functions over an explicit state,
and proves the frozen claims about them.

Modelling conventions:
- JavaScript `Map`s become association lists (`List (String × α)`) with
  `alGet` / `alSet` / `alDel` helpers mirroring `get` / `set` / `delete`;
  `Map.set` preserves insertion order for existing keys, as in JS.
- `Date` values are natural-number timestamps in milliseconds; every
  operation that calls `new Date()` / `Date.now()` takes a `now : Nat`.
- Image `Buffer`s are opaque naturals.
- The LLM collaborators (`analyzeSellerResponse`, `detectSellerCancellation`,
  `detectRefundConfirmation`, `detectMessNameInMessage`) and the awaited
  confirmation futures are external collaborators per the specification;
  their structured results enter each operation as an `Oracle` argument.
- Messages produced by the `generate*` text generators are represented by
  tags (`BotMsg`, `SelfMsg`); all observable collaborator invocations are
  accumulated as an `Effect` trace in the state.
-/

namespace MessBot

/-- Association list lookup, mirroring JS `Map.get`. -/
def alGet (l : List (String × α)) (k : String) : Option α :=
  (l.find? (fun p => p.1 = k)).map (fun p => p.2)

/-- Association list update, mirroring JS `Map.set`: replaces in place if the
key exists, appends otherwise. -/
def alSet (l : List (String × α)) (k : String) (v : α) : List (String × α) :=
  if (l.find? (fun p => p.1 = k)).isSome then
    l.map (fun p => if p.1 = k then (k, v) else p)
  else
    l ++ [(k, v)]

/-- Association list removal, mirroring JS `Map.delete`. -/
def alDel (l : List (String × α)) (k : String) : List (String × α) :=
  l.filter (fun p => ¬ p.1 = k)

/-- JS `String.prototype.includes`: substring containment. -/
def strIncludes (s pat : String) : Bool :=
  decide (pat.toList <:+: s.toList)

/-- JS `String.prototype.toLowerCase` (ASCII case folding, as in Lean's
`String.toLower`), written structurally over the character list so that
concrete runs reduce inside the kernel. -/
def strLower (s : String) : String :=
  String.mk (s.data.map Char.toLower)

/-- JS `String.prototype.trim` (drop leading and trailing whitespace),
written structurally over the character list. -/
def strTrim (s : String) : String :=
  String.mk
    (((s.data.dropWhile Char.isWhitespace).reverse.dropWhile
      Char.isWhitespace).reverse)

/-- `CouponType` from `src/conversation/types.ts`. -/
inductive CouponType where
  | lunch
  | dinner
deriving DecidableEq, Repr

/-- `ConversationState` from `src/conversation/types.ts`. -/
inductive ConversationState where
  | IDLE
  | INITIATING_CONTACT
  | AWAITING_MESS_INFO
  | NEGOTIATING
  | AWAITING_PAYMENT_INFO
  | PAYMENT_PENDING
  | AWAITING_COUPON
  | AWAITING_REFUND
  | AWAITING_REFUND_SCREENSHOT
  | COMPLETED
  | FAILED
deriving DecidableEq, Repr

/-- A state is terminal when it is `COMPLETED` or `FAILED`. -/
def ConversationState.isTerminal (s : ConversationState) : Bool :=
  s = ConversationState.COMPLETED ∨ s = ConversationState.FAILED

inductive Sender where
  | bot
  | seller
deriving DecidableEq, Repr

/-- `ChatMessage` from `src/conversation/types.ts` (the random UUID id is
omitted: it is never read). -/
structure ChatMessage where
  sender : Sender
  text : String
  timestamp : Nat
  hasMedia : Bool
deriving DecidableEq, Repr

/-- `Conversation` from `src/conversation/types.ts`.  Optional boolean flags
are `Bool` with default `false` (JS `undefined` is falsy everywhere they are
read). -/
structure Conversation where
  id : String
  sellerId : String
  sellerName : String
  couponType : CouponType
  state : ConversationState
  price : Nat
  upiId : Option String
  groupId : String
  groupName : String
  originalMessageId : String
  createdAt : Nat
  updatedAt : Nat
  failureReason : Option String := none
  couponFollowUpCount : Option Nat := none
  lastCouponRequestTime : Option Nat := none
  messName : Option String := none
  refundRequested : Bool := false
  refundReceived : Bool := false
  refundScreenshotReceived : Bool := false
  messages : List ChatMessage := []
  completedAt : Option Nat := none
deriving DecidableEq, Repr

/-- `SellMessage` from `src/conversation/types.ts`. -/
structure SellMessage where
  messageId : String
  senderId : String
  senderName : String
  groupId : String
  groupName : String
  couponType : CouponType
  rawMessage : String
  timestamp : Nat
deriving DecidableEq, Repr

/-- Tags for the seller-facing messages produced by the `generate*`
collaborators in `src/llm/conversationAI.ts`, plus the two literal
acknowledgment strings of `stateMachine.ts`. -/
inductive BotMsg where
  | initialContact
  | askMessName
  | askUpi
  | messMismatchDecline (wanted got : String)
  | priceDecline
  | notAvailableAck
  | waitingAck
  | conversational (context : String)
  | payingNow
  | paymentConfirmation
  | paymentDoneWithThanks
  | thankYou
  | couponRequest (n : Nat)
  | cancelToSeller
  | cancelFollowUpProbe
  | convinceSeller
  | acceptCancellation
  | refundRequest
  | askRefundScreenshot
  | refundThanks
  | refundConversation
  | clarification (q : String)
  | earlyAckConfirming
  | earlyAckCompleting
deriving DecidableEq, Repr

/-- Tags for the operator-facing notifications (`sendToSelf` /
`sendMediaToSelf` captions). -/
inductive SelfMsg where
  | purchasePrompt (sellerName : String) (upi : Option String)
  | dealCancelledNote (sellerName : String) (reason : String)
  | cancelledAfterPayment (sellerName : String)
  | refundReceivedNote (sellerName : String)
  | couponNotReceivedAlert (sellerName : String)
  | failedSummary (t : CouponType) (sellerName : String) (reason : String)
      (refundRequested refundReceived refundScreenshotReceived : Bool)
  | purchasedCaption (t : CouponType) (sellerName : String)
  | manualCompletedNote (sellerName : String)
deriving DecidableEq, Repr

/-- Observable collaborator invocations, in program order. -/
inductive Effect where
  | msgToSeller (sellerId : String) (m : BotMsg)
  | msgToSelf (m : SelfMsg)
  | mediaToSelf (img : Nat) (m : SelfMsg)
  | desktopPaymentAlert (convId : String)
  | desktopSuccessAlert (t : CouponType)
  | savedCouponImage (t : CouponType) (img : Nat)
  | recordedSuccess (convId : String)
  | recordedFailure (convId : String) (reason : String) (refundReceived : Bool)
  | couponPurchasedSink (t : CouponType) (convId : String)
  | conversationFailedSink (convId : String) (reason : String)
  | setSellerCtx (name : String)
  | clearSellerCtx
  | persistedState
deriving DecidableEq, Repr

/-- The mutable state of `ConversationManager`: the conversation store, the
singleton active-conversation pointer, the two module-level image maps, the
cancellation escalation map, and the accumulated effect trace. -/
structure MState where
  conversations : List (String × Conversation)
  currentConversationId : Option String := none
  earlyCouponImages : List (String × Nat) := []
  receivedImages : List (String × List Nat) := []
  cancelFollowUp : List (String × Nat) := []
  effects : List Effect := []
deriving DecidableEq, Repr

/-- Constructor-injected collaborators of `ConversationManager` that the
claims need. -/
structure Env where
  isTestAccount : String → Bool
  getMessPreference : CouponType → Option (List String)

/-- Structured result of `analyzeSellerResponse` (LLM collaborator,
`src/llm/messageParser.ts`). -/
structure Analysis where
  available : Option Bool := none
  price : Option Nat := none
  upiId : Option String := none
  phoneNumber : Option String := none
  useSameNumber : Bool := false
  agreesToSale : Option Bool := none
  hasCoupon : Bool := false
  needsClarification : Bool := false
  clarificationQuestion : Option String := none
  needsMoreInfo : Bool := false
deriving DecidableEq, Repr

/-- Structured result of `detectSellerCancellation`. -/
structure CancelSignal where
  isCancelling : Bool
  confidence : ℚ
deriving DecidableEq, Repr

/-- Structured result of `detectRefundConfirmation`. -/
structure RefundSignal where
  isRefundConfirmed : Bool
  confidence : ℚ
deriving DecidableEq, Repr

/-- External inputs consumed while processing one event: the structured LLM
results for the inbound text, the media fetched from the chat transport, and
the values the two human-confirmation futures resolve with. -/
structure Oracle where
  analysis : Analysis := {}
  cancellation : CancelSignal := ⟨false, 0⟩
  refundConfirm : RefundSignal := ⟨false, 0⟩
  messNameDetected : Option String := none
  chatMedia : List Nat := []
  userConfirmed : Bool := false
  paymentDone : Bool := false
deriving Repr

/-- Fixed purchase price (`FIXED_PRICE` in `stateMachine.ts`). -/
def FIXED_PRICE : Nat := 70

/-- `RECENT_CONVERSATION_WINDOW_MS` (10 minutes). -/
def RECENT_CONVERSATION_WINDOW_MS : Nat := 10 * 60 * 1000

/-- `WAIT_PATTERNS` from `stateMachine.ts`. -/
def WAIT_PATTERNS : List String :=
  ["hold on", "holdon", "wait", "one sec", "1 sec", "one min", "1 min",
   "sending", "will send", "sending now", "ruk", "ruko", "ek min", "ek sec",
   "abhi bhejta", "abhi bhej raha", "bhej raha", "just a moment", "moment",
   "give me a sec", "give me a min", "coming", "on the way"]

/-- `ACKNOWLEDGMENT_PATTERNS` from `stateMachine.ts`. -/
def ACKNOWLEDGMENT_PATTERNS : List String :=
  ["ok", "okay", "k", "done", "sure", "alright", "fine", "haan", "ha", "theek"]

/-- The short-acknowledgment test used by `handleAwaitingMessInfo` and
`handlePaymentPending`. -/
def isShortAck (lower : String) : Bool :=
  lower.length ≤ 2 ||
    (["ok", "okay", "k", "hm", "hmm", "yes", "ya", "ha", "haan"].contains lower)

/-- `WAIT_PATTERNS.some(p => lowerMessage.includes(p))`. -/
def isWaitMessage (lower : String) : Bool :=
  WAIT_PATTERNS.any (fun p => strIncludes lower p)

/-- `extractPhoneFromWhatsAppId`: strips the WhatsApp suffixes and the `91`
country prefix.  The TS function is declared `string | null` but every path
returns a string; the caller tests JS truthiness, so the empty string acts
as the falsy case. -/
def extractPhoneFromWhatsAppId (whatsappId : String) : String :=
  let cleaned :=
    let c1 := if whatsappId.endsWith "@c.us" then
      whatsappId.dropRight "@c.us".length else whatsappId
    if c1.endsWith "@s.whatsapp.net" then
      c1.dropRight "@s.whatsapp.net".length else c1
  if cleaned.startsWith "91" ∧ cleaned.length = 12 then
    cleaned.drop 2
  else
    cleaned

/-- JS truthiness for nullable strings (`null` and the empty string are
falsy). -/
def jsTruthy (s : Option String) : Bool :=
  match s with
  | none => false
  | some str => str ≠ ""

/-- Append one effect to the trace. -/
def emit (st : MState) (e : Effect) : MState :=
  { st with effects := st.effects ++ [e] }

/-- Append several effects to the trace. -/
def emits (st : MState) (es : List Effect) : MState :=
  { st with effects := st.effects ++ es }

/-- Write a conversation back into the store (JS mutates the shared object;
here the store entry is updated explicitly). -/
def putConv (st : MState) (c : Conversation) : MState :=
  { st with conversations := alSet st.conversations c.id c }

/-- Canonical rendering of a bot message tag, used for the history log. -/
def msgText (m : BotMsg) : String :=
  reprStr m

/-- `addMessage`: push onto the capped history log (last 50 kept). -/
def addMessage (conv : Conversation) (sender : Sender) (text : String)
    (hasMedia : Bool) (now : Nat) : Conversation :=
  let ms := conv.messages ++ [⟨sender, text, now, hasMedia⟩]
  { conv with messages := if 50 < ms.length then ms.drop (ms.length - 50) else ms }

/-- `sendToSeller`: send to the counterparty and track in history.  Returns
the updated state and conversation (the JS code mutates the shared object). -/
def sendToSeller (st : MState) (conv : Conversation) (m : BotMsg) (now : Nat) :
    MState × Conversation :=
  (emit st (Effect.msgToSeller conv.sellerId m),
   addMessage conv Sender.bot (msgText m) false now)

/-- `scanChatForCouponImage`: first the in-memory cumulative image log (most
recent stored image), then the chat-transport fallback (most recent fetched
image); the fetched media arrive through the oracle. -/
def scanChatForCouponImage (st : MState) (convId : String)
    (chatMedia : List Nat) : Option Nat :=
  match alGet st.receivedImages convId with
  | some imgs =>
      if 0 < imgs.length then imgs.getLast? else chatMedia.head?
  | none => chatMedia.head?

/-- `completeConversation`: the success finalizer (§4.4 of the spec). -/
def completeConversation (st : MState) (conv : Conversation) (couponImage : Nat)
    (now : Nat) : MState :=
  let conv := { conv with
    state := ConversationState.COMPLETED
    updatedAt := now
    completedAt := some now }
  let st := putConv st conv
  let st := { st with
    earlyCouponImages := alDel st.earlyCouponImages conv.id
    receivedImages := alDel st.receivedImages conv.id
    currentConversationId := none }
  let st := emit st Effect.clearSellerCtx
  let (st, conv) := sendToSeller st conv BotMsg.thankYou now
  let st := putConv st conv
  let st := emits st
    [Effect.savedCouponImage conv.couponType couponImage,
     Effect.recordedSuccess conv.id,
     Effect.mediaToSelf couponImage
       (SelfMsg.purchasedCaption conv.couponType conv.sellerName),
     Effect.desktopSuccessAlert conv.couponType,
     Effect.couponPurchasedSink conv.couponType conv.id,
     Effect.persistedState]
  st

/-- `failConversation`: the failure finalizer (§4.4 of the spec). -/
def failConversation (st : MState) (conv : Conversation) (reason : String)
    (now : Nat) : MState :=
  let conv := { conv with
    state := ConversationState.FAILED
    failureReason := some reason
    updatedAt := now
    completedAt := some now }
  let st := putConv st conv
  let st := { st with
    earlyCouponImages := alDel st.earlyCouponImages conv.id
    receivedImages := alDel st.receivedImages conv.id }
  let st :=
    if st.currentConversationId = some conv.id then
      emit { st with currentConversationId := none } Effect.clearSellerCtx
    else st
  let st := emits st
    [Effect.recordedFailure conv.id reason conv.refundReceived,
     Effect.persistedState,
     Effect.msgToSelf (SelfMsg.failedSummary conv.couponType conv.sellerName
       reason conv.refundRequested conv.refundReceived
       conv.refundScreenshotReceived),
     Effect.conversationFailedSink conv.id reason]
  st

/-- `handlePaymentFailure`: decline message to the counterparty, operator
notice, slot release, then the failure finalizer. -/
def handlePaymentFailure (st : MState) (conv : Conversation) (reason : String)
    (now : Nat) : MState :=
  let (st, conv) := sendToSeller st conv BotMsg.cancelToSeller now
  let st := putConv st conv
  let st := emit st (Effect.msgToSelf
    (SelfMsg.dealCancelledNote conv.sellerName reason))
  let st := { st with currentConversationId := none }
  failConversation st conv reason now

/-- `requestUserConfirmationAndPay`: checkpoint 1 (purchase approval) and
checkpoint 2 (payment assertion).  The two awaited futures resolve with
`o.userConfirmed` and `o.paymentDone`; the follow-up timer that the
`AWAITING_COUPON` branch starts is modelled separately by `followUpTick`. -/
def requestUserConfirmationAndPay (st : MState) (conv : Conversation)
    (o : Oracle) (now : Nat) : MState :=
  let st := emit st (Effect.msgToSelf
    (SelfMsg.purchasePrompt conv.sellerName conv.upiId))
  let st := emit st (Effect.desktopPaymentAlert conv.id)
  if o.userConfirmed then
    if o.paymentDone ∧ jsTruthy conv.upiId then
      -- check for an already-received coupon image before any reply
      let early := alGet st.earlyCouponImages conv.id
      let st := if early.isSome then
        { st with earlyCouponImages := alDel st.earlyCouponImages conv.id }
        else st
      let couponImage := match early with
        | some img => some img
        | none => scanChatForCouponImage st conv.id o.chatMedia
      match couponImage with
      | some img =>
          -- coupon already received: thank, complete inline
          let (st, conv) := sendToSeller st conv BotMsg.paymentDoneWithThanks now
          let conv := { conv with
            state := ConversationState.COMPLETED
            updatedAt := now
            completedAt := some now }
          let st := putConv st conv
          let st := { st with
            cancelFollowUp := alDel st.cancelFollowUp conv.id
            currentConversationId := none }
          let st := emit st Effect.clearSellerCtx
          emits st
            [Effect.savedCouponImage conv.couponType img,
             Effect.recordedSuccess conv.id,
             Effect.mediaToSelf img
               (SelfMsg.purchasedCaption conv.couponType conv.sellerName),
             Effect.desktopSuccessAlert conv.couponType,
             Effect.couponPurchasedSink conv.couponType conv.id,
             Effect.persistedState]
      | none =>
          -- no coupon yet: request the deliverable, enter AWAITING_COUPON
          let (st, conv) := sendToSeller st conv BotMsg.paymentConfirmation now
          let conv := { conv with
            state := ConversationState.AWAITING_COUPON
            couponFollowUpCount := some 0
            lastCouponRequestTime := some now
            updatedAt := now }
          let st := putConv st conv
          emit st Effect.persistedState
    else
      handlePaymentFailure st conv "Payment not completed" now
  else
    handlePaymentFailure st conv "User declined" now

/-- `handleAwaitingMessInfo`. -/
def handleAwaitingMessInfo (env : Env) (st : MState) (conv : Conversation)
    (message : String) (o : Oracle) (now : Nat) : MState :=
  let lowerMessage := strTrim (strLower message)
  if isShortAck lowerMessage then st
  else if isWaitMessage lowerMessage then
    let (st, conv) := sendToSeller st conv BotMsg.waitingAck now
    putConv st conv
  else
    match o.messNameDetected with
    | some messName =>
      let conv := { conv with messName := some messName }
      let userPreferences := env.getMessPreference conv.couponType
      let mismatch : Bool := match userPreferences with
        | some prefs =>
            decide (0 < prefs.length) &&
              ! prefs.any (fun pref => strLower messName = strLower pref)
        | none => false
      if mismatch then
        let preferenceDisplay :=
          String.intercalate " or " (userPreferences.getD [])
        let (st, conv) := sendToSeller st conv
          (BotMsg.messMismatchDecline preferenceDisplay messName) now
        let st := putConv st conv
        failConversation st conv
          ("Mess mismatch: wanted " ++ preferenceDisplay ++ ", got " ++ messName)
          now
      else
        let conv := { conv with
          state := ConversationState.AWAITING_PAYMENT_INFO
          updatedAt := now }
        let st := putConv st conv
        let st := emit st Effect.persistedState
        let (st, conv) := sendToSeller st conv BotMsg.askUpi now
        putConv st conv
    | none =>
      if o.analysis.available = some false then
        let (st, conv) := sendToSeller st conv BotMsg.notAvailableAck now
        let st := putConv st conv
        failConversation st conv "Coupon not available" now
      else
        let (st, conv) := sendToSeller st conv
          (BotMsg.conversational "asking which mess the coupon is for") now
        let (st, conv) := sendToSeller st conv BotMsg.askMessName now
        putConv st conv

/-- `handleAwaitingPaymentInfo`, including the pre-payment leg of the
cancellation sub-protocol. -/
def handleAwaitingPaymentInfo (st : MState) (conv : Conversation)
    (message : String) (o : Oracle) (now : Nat) : MState :=
  let lowerMessage := strTrim (strLower message)
  if isWaitMessage lowerMessage then
    let (st, conv) := sendToSeller st conv BotMsg.waitingAck now
    putConv st conv
  else
    let cancelState := (alGet st.cancelFollowUp conv.id).getD 0
    if o.cancellation.isCancelling ∧ (1 : ℚ)/2 < o.cancellation.confidence then
      if cancelState = 0 then
        let (st, conv) := sendToSeller st conv BotMsg.cancelFollowUpProbe now
        let st := putConv st conv
        { st with cancelFollowUp := alSet st.cancelFollowUp conv.id 1 }
      else if cancelState = 1 then
        let (st, conv) := sendToSeller st conv BotMsg.convinceSeller now
        let st := putConv st conv
        { st with cancelFollowUp := alSet st.cancelFollowUp conv.id 2 }
      else
        let (st, conv) := sendToSeller st conv BotMsg.acceptCancellation now
        let st := putConv st conv
        let st := { st with cancelFollowUp := alDel st.cancelFollowUp conv.id }
        failConversation st conv "Seller cancelled the deal" now
    else
      -- seller responded after a cancellation attempt: possibly reset
      let st :=
        if 0 < cancelState ∧
            (o.analysis.agreesToSale = some true ∨
             o.analysis.available = some true) then
          { st with cancelFollowUp := alDel st.cancelFollowUp conv.id }
        else st
      let analysis := o.analysis
      if analysis.needsClarification ∧ jsTruthy analysis.clarificationQuestion
      then
        let (st, conv) := sendToSeller st conv
          (BotMsg.clarification (analysis.clarificationQuestion.getD "")) now
        let st := putConv st conv
        emit st Effect.persistedState
      else if analysis.available = some false then
        let (st, conv) := sendToSeller st conv BotMsg.notAvailableAck now
        let st := putConv st conv
        failConversation st conv "Coupon not available" now
      else if analysis.price.isSome ∧ FIXED_PRICE < analysis.price.getD 0 then
        let (st, conv) := sendToSeller st conv BotMsg.priceDecline now
        let st := putConv st conv
        failConversation st conv
          ("Price " ++ toString (analysis.price.getD 0) ++ " > " ++
            toString FIXED_PRICE) now
      else
        let upiId : Option String :=
          if analysis.useSameNumber then
            let sellerPhone := extractPhoneFromWhatsAppId conv.sellerId
            if sellerPhone ≠ "" then some (sellerPhone ++ "@upi") else none
          else if jsTruthy analysis.upiId then analysis.upiId
          else if jsTruthy analysis.phoneNumber then
            some (analysis.phoneNumber.getD "" ++ "@upi")
          else none
        match upiId with
        | some u =>
            -- payment details learned: claim the active slot, checkpoint 1
            let st := { st with currentConversationId := some conv.id }
            let conv := { conv with
              upiId := some u
              state := ConversationState.PAYMENT_PENDING
              updatedAt := now }
            let st := putConv st conv
            requestUserConfirmationAndPay st conv o now
        | none =>
          if analysis.agreesToSale = some true ∨ analysis.available = some true
          then
            let (st, conv) := sendToSeller st conv BotMsg.askUpi now
            let st := putConv st conv
            emit st Effect.persistedState
          else if 5 < message.length ∧ ¬ analysis.needsMoreInfo then
            let (st, conv) := sendToSeller st conv
              (BotMsg.conversational
                "negotiating coupon purchase, need UPI details") now
            putConv st conv
          else
            let (st, conv) := sendToSeller st conv BotMsg.askUpi now
            let st := putConv st conv
            emit st Effect.persistedState

/-- `paymentQueryPatterns` of `handlePaymentPending`. -/
def paymentQueryPatterns : List String :=
  ["paid", "pay", "payment", "done", "sent", "send", "kiya", "kia", "bheja",
   "bheji", "bhej", "kar", "diya", "dia", "ho gaya", "hogaya", "hua", "money",
   "paisa", "paise", "?", "bro", "bhai", "dude", "yaar", "waiting", "wait"]

/-- `handlePaymentPending`. -/
def handlePaymentPending (st : MState) (conv : Conversation) (message : String)
    (mediaBuffer : Option Nat) (now : Nat) : MState :=
  let lowerMessage := strTrim (strLower message)
  match mediaBuffer with
  | some img =>
      let st := { st with
        earlyCouponImages := alSet st.earlyCouponImages conv.id img }
      let existing := (alGet st.receivedImages conv.id).getD []
      let st := { st with
        receivedImages := alSet st.receivedImages conv.id (existing ++ [img]) }
      let (st, conv) := sendToSeller st conv BotMsg.earlyAckCompleting now
      putConv st conv
  | none =>
    if isShortAck lowerMessage then st
    else if paymentQueryPatterns.any (fun p => strIncludes lowerMessage p) ∨
        3 < message.length then
      let (st, conv) := sendToSeller st conv BotMsg.payingNow now
      putConv st conv
    else st

/-- `handleAwaitingCoupon`, including the post-payment leg of the
cancellation sub-protocol. -/
def handleAwaitingCoupon (st : MState) (conv : Conversation) (message : String)
    (mediaBuffer : Option Nat) (o : Oracle) (now : Nat) : MState :=
  match alGet st.earlyCouponImages conv.id with
  | some earlyCoupon =>
      let st := { st with
        earlyCouponImages := alDel st.earlyCouponImages conv.id
        cancelFollowUp := alDel st.cancelFollowUp conv.id }
      completeConversation st conv earlyCoupon now
  | none =>
    match scanChatForCouponImage st conv.id o.chatMedia with
    | some existingCoupon =>
        let st := { st with cancelFollowUp := alDel st.cancelFollowUp conv.id }
        completeConversation st conv existingCoupon now
    | none =>
      match mediaBuffer with
      | some img =>
          let st :=
            { st with cancelFollowUp := alDel st.cancelFollowUp conv.id }
          completeConversation st conv img now
      | none =>
        let lowerMessage := strTrim (strLower message)
        let cancelState := (alGet st.cancelFollowUp conv.id).getD 0
        if o.cancellation.isCancelling ∧
            (1 : ℚ)/2 < o.cancellation.confidence then
          if cancelState = 0 then
            let (st, conv) := sendToSeller st conv BotMsg.cancelFollowUpProbe now
            let st := putConv st conv
            { st with cancelFollowUp := alSet st.cancelFollowUp conv.id 1 }
          else if cancelState = 1 then
            let (st, conv) := sendToSeller st conv BotMsg.convinceSeller now
            let st := putConv st conv
            { st with cancelFollowUp := alSet st.cancelFollowUp conv.id 2 }
          else
            -- accepted after payment: request a refund and track it
            let (st, conv) := sendToSeller st conv BotMsg.refundRequest now
            let st := putConv st conv
            let st :=
              { st with cancelFollowUp := alDel st.cancelFollowUp conv.id }
            let conv := { conv with
              state := ConversationState.AWAITING_REFUND
              refundRequested := true
              updatedAt := now }
            let st := putConv st conv
            let st := emit st Effect.persistedState
            emit st (Effect.msgToSelf
              (SelfMsg.cancelledAfterPayment conv.sellerName))
        else
          let st :=
            if 0 < cancelState ∧
                (o.analysis.agreesToSale = some true ∨ o.analysis.hasCoupon)
            then
              { st with cancelFollowUp := alDel st.cancelFollowUp conv.id }
            else st
          if isWaitMessage lowerMessage then
            let (st, conv) := sendToSeller st conv BotMsg.waitingAck now
            putConv st conv
          else if ACKNOWLEDGMENT_PATTERNS.any (fun p => lowerMessage = p) then
            st
          else if 3 < message.length ∧ ¬ o.analysis.hasCoupon then
            let (st, conv) := sendToSeller st conv
              (BotMsg.conversational "waiting for coupon after payment") now
            putConv st conv
          else st

/-- `handleAwaitingRefund`. -/
def handleAwaitingRefund (st : MState) (conv : Conversation) (message : String)
    (o : Oracle) (now : Nat) : MState :=
  let lowerMessage := strTrim (strLower message)
  if o.refundConfirm.isRefundConfirmed ∧
      (1 : ℚ)/2 < o.refundConfirm.confidence then
    let (st, conv) := sendToSeller st conv BotMsg.askRefundScreenshot now
    let conv := { conv with
      state := ConversationState.AWAITING_REFUND_SCREENSHOT
      updatedAt := now }
    let st := putConv st conv
    emit st Effect.persistedState
  else if isWaitMessage lowerMessage then
    let (st, conv) := sendToSeller st conv BotMsg.waitingAck now
    putConv st conv
  else if 2 < message.length then
    let (st, conv) := sendToSeller st conv BotMsg.refundConversation now
    putConv st conv
  else st

/-- `handleAwaitingRefundScreenshot`. -/
def handleAwaitingRefundScreenshot (st : MState) (conv : Conversation)
    (message : String) (mediaBuffer : Option Nat) (o : Oracle) (now : Nat) :
    MState :=
  match mediaBuffer with
  | some _ =>
      let (st, conv) := sendToSeller st conv BotMsg.refundThanks now
      let conv := { conv with
        refundReceived := true
        refundScreenshotReceived := true }
      let st := putConv st conv
      let st := emit st (Effect.msgToSelf
        (SelfMsg.refundReceivedNote conv.sellerName))
      let st := { st with currentConversationId := none }
      let st := emit st Effect.clearSellerCtx
      failConversation st conv "Seller cancelled after payment - REFUND RECEIVED"
        now
  | none =>
    if o.refundConfirm.isRefundConfirmed then
      let (st, conv) := sendToSeller st conv BotMsg.askRefundScreenshot now
      putConv st conv
    else if 2 < message.length then
      let (st, conv) := sendToSeller st conv BotMsg.refundConversation now
      putConv st conv
    else st

/-- The dispatcher predicate: the unique non-terminal conversation for this
counterparty (first in store order). -/
def findActiveBySeller (st : MState) (sellerId : String) : Option Conversation :=
  ((st.conversations.map (fun p => p.2)).find? (fun c =>
    c.sellerId = sellerId ∧ ¬ c.state.isTerminal))

/-- `handleSellerMessage`: the dispatch entry point (§4.1).  Appends the
inbound event to history, stores any attachment in the reconciliation
buffers (with the early-image acknowledgment when the state machine is not
yet ready for it), and routes to the per-state handler. -/
def handleSellerMessage (env : Env) (st : MState) (sellerId : String)
    (message : String) (mediaBuffer : Option Nat) (o : Oracle) (now : Nat) :
    MState :=
  match findActiveBySeller st sellerId with
  | none => st
  | some conversation =>
    let text := if message ≠ "" then message
      else if mediaBuffer.isSome then "[Image]" else ""
    let conversation :=
      addMessage conversation Sender.seller text mediaBuffer.isSome now
    let st := putConv st conversation
    let (st, conversation) := match mediaBuffer with
      | some img =>
          let existing := (alGet st.receivedImages conversation.id).getD []
          let rcv := alSet st.receivedImages conversation.id (existing ++ [img])
          let st := { st with receivedImages := rcv }
          if conversation.state ≠ ConversationState.AWAITING_COUPON then
            let ecb := alSet st.earlyCouponImages conversation.id img
            let st := { st with earlyCouponImages := ecb }
            let (st, conversation) :=
              sendToSeller st conversation BotMsg.earlyAckConfirming now
            (putConv st conversation, conversation)
          else (st, conversation)
      | none => (st, conversation)
    match conversation.state with
    | ConversationState.AWAITING_MESS_INFO =>
        handleAwaitingMessInfo env st conversation message o now
    | ConversationState.AWAITING_PAYMENT_INFO =>
        handleAwaitingPaymentInfo st conversation message o now
    | ConversationState.PAYMENT_PENDING =>
        handlePaymentPending st conversation message mediaBuffer now
    | ConversationState.AWAITING_COUPON =>
        handleAwaitingCoupon st conversation message mediaBuffer o now
    | ConversationState.AWAITING_REFUND =>
        handleAwaitingRefund st conversation message o now
    | ConversationState.AWAITING_REFUND_SCREENSHOT =>
        handleAwaitingRefundScreenshot st conversation message mediaBuffer o now
    | _ => st

/-- `isSellerBlockedToday`: a seller with a `FAILED` conversation created at
or after local midnight (`todayStart`) is blocked for the day; test accounts
are exempt. -/
def isSellerBlockedToday (env : Env) (st : MState) (todayStart : Nat)
    (sellerId : String) : Bool :=
  if env.isTestAccount sellerId then false
  else
    (st.conversations.map (fun p => p.2)).any (fun c =>
      c.sellerId = sellerId ∧ c.state = ConversationState.FAILED ∧
        todayStart ≤ c.createdAt)

/-- `findRecentConversation`: most recent conversation with this seller for
this coupon type inside the 10-minute window (stable descending sort by
creation time, then head: the first conversation attaining the maximal
`createdAt`). -/
def findRecentConversation (st : MState) (sellerId : String)
    (couponType : CouponType) (now : Nat) : Option Conversation :=
  let cutoffTime : ℤ := (now : ℤ) - (RECENT_CONVERSATION_WINDOW_MS : ℤ)
  let recent := (st.conversations.map (fun p => p.2)).filter (fun c =>
    c.sellerId = sellerId ∧ c.couponType = couponType ∧
      cutoffTime < (c.createdAt : ℤ))
  recent.foldl (fun acc c =>
    match acc with
    | none => some c
    | some b => if b.createdAt < c.createdAt then some c else some b) none

/-- `resumeConversation`: re-claim the active slot and re-issue the prompt
appropriate to the persisted state. -/
def resumeConversation (st : MState) (conversation : Conversation) (o : Oracle)
    (now : Nat) : MState × Conversation :=
  let st := { st with currentConversationId := some conversation.id }
  let st := emit st (Effect.setSellerCtx conversation.sellerName)
  let st :=
    match conversation.state with
    | ConversationState.INITIATING_CONTACT =>
        let (st, conversation) := sendToSeller st conversation BotMsg.askUpi now
        putConv st
          { conversation with state := ConversationState.AWAITING_PAYMENT_INFO }
    | ConversationState.AWAITING_PAYMENT_INFO =>
        let (st, conversation) := sendToSeller st conversation BotMsg.askUpi now
        putConv st
          { conversation with state := ConversationState.AWAITING_PAYMENT_INFO }
    | ConversationState.PAYMENT_PENDING =>
        if jsTruthy conversation.upiId then
          requestUserConfirmationAndPay st conversation o now
        else
          let (st, conversation) :=
            sendToSeller st conversation BotMsg.askUpi now
          putConv st
            { conversation with
              state := ConversationState.AWAITING_PAYMENT_INFO }
    | _ => st
  -- the JS code then stamps `updatedAt` on the shared object
  let conversation := (alGet st.conversations conversation.id).getD conversation
  let conversation := { conversation with updatedAt := now }
  let st := putConv st conversation
  (emit st Effect.persistedState, conversation)

/-- `startConversation`: create the entity, claim the active slot, greet the
counterparty, and enter `AWAITING_PAYMENT_INFO` (mess known) or
`AWAITING_MESS_INFO` (mess unknown), declining outright on a preference
mismatch.  `newId` stands for the generated random id. -/
def startConversation (env : Env) (st : MState) (sellMessage : SellMessage)
    (o : Oracle) (newId : String) (now : Nat) : MState × Conversation :=
  let messNameInMessage := o.messNameDetected
  let conversation : Conversation := {
    id := newId
    sellerId := sellMessage.senderId
    sellerName := sellMessage.senderName
    couponType := sellMessage.couponType
    state := ConversationState.INITIATING_CONTACT
    price := FIXED_PRICE
    upiId := none
    groupId := sellMessage.groupId
    groupName := sellMessage.groupName
    originalMessageId := sellMessage.messageId
    createdAt := now
    updatedAt := now
    messName := messNameInMessage }
  let st := putConv st conversation
  let st := { st with currentConversationId := some newId }
  let st := emit st (Effect.setSellerCtx sellMessage.senderName)
  let userPreferences := env.getMessPreference sellMessage.couponType
  let hasSpecificPreference : Bool := match userPreferences with
    | some prefs => decide (0 < prefs.length)
    | none => false
  match messNameInMessage with
  | some messName =>
      let prefMatches : Bool := (userPreferences.getD []).any (fun pref =>
        strLower messName = strLower pref)
      if hasSpecificPreference ∧ ¬ prefMatches then
        let preferenceDisplay :=
          String.intercalate " or " (userPreferences.getD [])
        let st := emit st (Effect.msgToSeller sellMessage.senderId
          (BotMsg.messMismatchDecline preferenceDisplay messName))
        let st := failConversation st conversation
          ("Mess mismatch: wanted " ++ preferenceDisplay ++ ", got " ++
            messName) now
        (st, (alGet st.conversations newId).getD conversation)
      else
        let st := emit st (Effect.msgToSeller sellMessage.senderId
          BotMsg.initialContact)
        let conversation := { conversation with
          state := ConversationState.AWAITING_PAYMENT_INFO
          updatedAt := now }
        let st := putConv st conversation
        (emit st Effect.persistedState, conversation)
  | none =>
      let st := emit st (Effect.msgToSeller sellMessage.senderId
        BotMsg.initialContact)
      let st := emit st (Effect.msgToSeller sellMessage.senderId
        BotMsg.askMessName)
      let conversation := { conversation with
        state := ConversationState.AWAITING_MESS_INFO
        updatedAt := now }
      let st := putConv st conversation
      (emit st Effect.persistedState, conversation)

/-- `startOrResumeConversation`: the offer-acceptance entry point.  Returns
`none` when the seller is blocked for the day, when the singleton active
slot is held by a different seller with a non-terminal conversation, or when
a recent deal with this seller already completed (non-test accounts). -/
def startOrResumeConversation (env : Env) (st : MState)
    (sellMessage : SellMessage) (o : Oracle) (newId : String)
    (todayStart : Nat) (now : Nat) : MState × Option Conversation :=
  if isSellerBlockedToday env st todayStart sellMessage.senderId then (st, none)
  else
    let blockedByActive : Bool :=
      match st.currentConversationId with
      | some cid =>
          match alGet st.conversations cid with
          | some currentConv =>
              ¬ currentConv.state.isTerminal ∧
                currentConv.sellerId ≠ sellMessage.senderId
          | none => false
      | none => false
    if blockedByActive then (st, none)
    else
      match findRecentConversation st sellMessage.senderId
        sellMessage.couponType now with
      | some recentConv =>
          if recentConv.state = ConversationState.COMPLETED then
            if env.isTestAccount sellMessage.senderId then
              let (st, c) := startConversation env st sellMessage o newId now
              (st, some c)
            else (st, none)
          else if recentConv.state ≠ ConversationState.FAILED then
            let (st, c) := resumeConversation st recentConv o now
            (st, some c)
          else
            let (st, c) := startConversation env st sellMessage o newId now
            (st, some c)
      | none =>
          let (st, c) := startConversation env st sellMessage o newId now
          (st, some c)

/-- The `Result` shape of the manual override entry points. -/
structure ManualResult where
  success : Bool
  error : Option String := none
deriving DecidableEq, Repr

/-- `manuallyCompleteConversation` (`forceComplete`): manual success
finalization with the idempotence guard. -/
def manuallyCompleteConversation (st : MState) (conversationId : String)
    (now : Nat) : MState × ManualResult :=
  match alGet st.conversations conversationId with
  | none => (st, ⟨false, some "Conversation not found"⟩)
  | some conversation =>
    if conversation.state = ConversationState.COMPLETED then
      (st, ⟨false, some "Conversation already completed"⟩)
    else if conversation.state = ConversationState.FAILED then
      (st, ⟨false, some "Conversation already failed"⟩)
    else
      let conversation := { conversation with
        state := ConversationState.COMPLETED
        updatedAt := now
        completedAt := some now }
      let st := putConv st conversation
      let st := { st with
        earlyCouponImages := alDel st.earlyCouponImages conversationId
        receivedImages := alDel st.receivedImages conversationId
        cancelFollowUp := alDel st.cancelFollowUp conversationId }
      let st :=
        if st.currentConversationId = some conversationId then
          emit { st with currentConversationId := none } Effect.clearSellerCtx
        else st
      let (st, conversation) := sendToSeller st conversation BotMsg.thankYou now
      let st := putConv st conversation
      let st := emits st
        [Effect.recordedSuccess conversation.id,
         Effect.msgToSelf (SelfMsg.manualCompletedNote conversation.sellerName),
         Effect.desktopSuccessAlert conversation.couponType,
         Effect.couponPurchasedSink conversation.couponType conversationId,
         Effect.persistedState]
      (st, ⟨true, none⟩)

/-- `manuallyFailConversation` (`forceFail`): manual failure finalization
with the idempotence guard. -/
def manuallyFailConversation (st : MState) (conversationId : String)
    (reason : String) (now : Nat) : MState × ManualResult :=
  match alGet st.conversations conversationId with
  | none => (st, ⟨false, some "Conversation not found"⟩)
  | some conversation =>
    if conversation.state = ConversationState.COMPLETED then
      (st, ⟨false, some "Conversation already completed"⟩)
    else if conversation.state = ConversationState.FAILED then
      (st, ⟨false, some "Conversation already failed"⟩)
    else
      let (st, conversation) :=
        sendToSeller st conversation BotMsg.cancelToSeller now
      let st := putConv st conversation
      let st := { st with
        earlyCouponImages := alDel st.earlyCouponImages conversationId
        receivedImages := alDel st.receivedImages conversationId
        cancelFollowUp := alDel st.cancelFollowUp conversationId }
      let st := failConversation st conversation reason now
      (st, ⟨true, none⟩)

/-- `MAX_FOLLOW_UPS`, the follow-up ceiling of `startCouponFollowUpTimer`. -/
def MAX_FOLLOW_UPS : Nat := 8

/-- `handleCouponNotReceived`: the deliberate soft failure — one operator
alert, release the active slot, no terminal transition. -/
def handleCouponNotReceived (st : MState) (conversation : Conversation) :
    MState :=
  let st := emit st (Effect.msgToSelf
    (SelfMsg.couponNotReceivedAlert conversation.sellerName))
  { st with currentConversationId := none }

/-- One firing of the `checkAndFollowUp` callback scheduled by
`startCouponFollowUpTimer`.  The returned boolean reports whether the
callback rescheduled itself (`setTimeout` was called again). -/
def followUpTick (st : MState) (convId : String) (chatMedia : List Nat)
    (now : Nat) : MState × Bool :=
  match alGet st.conversations convId with
  | none => (st, false)
  | some currentConv =>
    if currentConv.state = ConversationState.COMPLETED ∨
        currentConv.state = ConversationState.FAILED then (st, false)
    else if currentConv.state ≠ ConversationState.AWAITING_COUPON then
      (st, false)
    else
      match alGet st.earlyCouponImages convId with
      | some earlyCoupon =>
          let st := { st with
            earlyCouponImages := alDel st.earlyCouponImages convId
            cancelFollowUp := alDel st.cancelFollowUp convId }
          (completeConversation st currentConv earlyCoupon now, false)
      | none =>
        match scanChatForCouponImage st convId chatMedia with
        | some existingCoupon =>
            let st :=
              { st with cancelFollowUp := alDel st.cancelFollowUp convId }
            (completeConversation st currentConv existingCoupon now, false)
        | none =>
          let followUpCount := currentConv.couponFollowUpCount.getD 0
          if MAX_FOLLOW_UPS ≤ followUpCount then
            (handleCouponNotReceived st currentConv, false)
          else
            let (st, currentConv) :=
              sendToSeller st currentConv (BotMsg.couponRequest followUpCount)
                now
            let currentConv := { currentConv with
              couponFollowUpCount := some (followUpCount + 1)
              lastCouponRequestTime := some now
              updatedAt := now }
            let st := putConv st currentConv
            (emit st Effect.persistedState, true)

/-- `getActiveConversations`: all non-terminal conversations plus terminal
ones inside the 15-second post-completion animation window. -/
def getActiveConversations (st : MState) (now : Nat) : List Conversation :=
  (st.conversations.map (fun p => p.2)).filter (fun c =>
    if ¬ c.state.isTerminal then true
    else match c.completedAt with
      | some completedMs => (now : ℤ) - (completedMs : ℤ) < 15000
      | none => false)

/-- `resumeIncompleteConversations` (startup path, `src/index.ts`): a
persisted conversation inactive for more than ten minutes is marked
`FAILED` in place — directly, without going through the failure finalizer —
and every other one is resumed. -/
def resumeIncompleteConversations (st : MState)
    (testPhone : String → Bool) (oracleFor : String → Oracle) (now : Nat) :
    MState :=
  let activeConvs := getActiveConversations st now
  let st := activeConvs.foldl (fun st conv =>
    let lastActivityMs : ℤ := (now : ℤ) - (conv.updatedAt : ℤ)
    if ¬ testPhone conv.sellerId ∧ 10 * 60 * 1000 < lastActivityMs then
      putConv st { conv with
        state := ConversationState.FAILED
        failureReason := some "No response for 10+ minutes" }
    else
      (resumeConversation st conv (oracleFor conv.id) now).1) st
  emit st Effect.persistedState

/-!
Human-confirmation checkpoint machinery of `MessCouponBot` (`src/index.ts`).

A checkpoint future is registered by `waitForUserConfirmation` /
`waitForPaymentConfirmation`: the conversation id is stored as the pending
pointer and the promise resolver is stored in a `Map` keyed by conversation
id.  Every resolution channel (WhatsApp reply, web dashboard, terminal) and
the decision timeout all follow the same discipline: look the resolver up,
and only if it is still present call it and delete the map entry.  `calls`
records every actual resolver invocation, in order, so that the
first-resolution-wins property is about the code discipline and not about
the built-in idempotence of promise resolution. -/
structure CkState where
  resolvers : List String := []
  pending : Option String := none
  calls : List (String × Bool) := []
deriving DecidableEq, Repr

/-- Resolution-relevant events for the checkpoint-1 (purchase approval)
future: a confirm from any channel (`ok` over WhatsApp, terminal `ok`,
dashboard confirm — all also require the conversation to still exist, the
`convFound` flag), a decline from any channel, the 2-minute decision
timeout, the 25-second escalation call timer, and the logout reset. -/
inductive UserCkEvent where
  | confirm (convFound : Bool)
  | decline
  | timerFire (convId : String)
  | callAlert (convId : String)
  | reset
deriving DecidableEq, Repr

/-- `waitForUserConfirmation(conversationId)` / `waitForPaymentConfirmation`:
store the pending pointer and the resolver. -/
def ckRegister (s : CkState) (conversationId : String) : CkState :=
  { s with
    pending := some conversationId
    resolvers :=
      if s.resolvers.contains conversationId then s.resolvers
      else s.resolvers ++ [conversationId] }

/-- One checkpoint-1 event (`src/index.ts` lines 466-543, 766-804, 843-884,
1061-1093, 1120-1137). -/
def userCkStep (s : CkState) (e : UserCkEvent) : CkState :=
  match e with
  | UserCkEvent.confirm convFound =>
      match s.pending with
      | some cid =>
          if s.resolvers.contains cid ∧ convFound then
            { s with
              pending := none
              resolvers := s.resolvers.filter (fun r => r ≠ cid)
              calls := s.calls ++ [(cid, true)] }
          else s
      | none => s
  | UserCkEvent.decline =>
      match s.pending with
      | some cid =>
          if s.resolvers.contains cid then
            { s with
              pending := none
              resolvers := s.resolvers.filter (fun r => r ≠ cid)
              calls := s.calls ++ [(cid, false)] }
          else s
      | none => s
  | UserCkEvent.timerFire convId =>
      if s.resolvers.contains convId then
        { s with
          resolvers := s.resolvers.filter (fun r => r ≠ convId)
          pending := if s.pending = some convId then none else s.pending
          calls := s.calls ++ [(convId, false)] }
      else s
  | UserCkEvent.callAlert _ => s
  | UserCkEvent.reset => { s with resolvers := [], pending := none }

/-- Resolution-relevant events for the checkpoint-2 (payment assertion)
future: `paid` from any channel, the terminal `cancel`, the 10-minute
timeout, and the logout reset.  There is no escalation call timer here. -/
inductive PayCkEvent where
  | confirmPaid
  | cancelPay
  | timerFire (convId : String)
  | reset
deriving DecidableEq, Repr

/-- One checkpoint-2 event (`src/index.ts` lines 545-556, 806-832, 886-928,
1095-1105, 1120-1137). -/
def payCkStep (s : CkState) (e : PayCkEvent) : CkState :=
  match e with
  | PayCkEvent.confirmPaid =>
      match s.pending with
      | some cid =>
          if s.resolvers.contains cid then
            { s with
              pending := none
              resolvers := s.resolvers.filter (fun r => r ≠ cid)
              calls := s.calls ++ [(cid, true)] }
          else s
      | none => s
  | PayCkEvent.cancelPay =>
      match s.pending with
      | some cid =>
          if s.resolvers.contains cid then
            { s with
              pending := none
              resolvers := s.resolvers.filter (fun r => r ≠ cid)
              calls := s.calls ++ [(cid, false)] }
          else s
      | none => s
  | PayCkEvent.timerFire convId =>
      if s.resolvers.contains convId then
        { s with
          resolvers := s.resolvers.filter (fun r => r ≠ convId)
          pending := if s.pending = some convId then none else s.pending
          calls := s.calls ++ [(convId, false)] }
      else s
  | PayCkEvent.reset => { s with resolvers := [], pending := none }

/-- Run a sequence of checkpoint-1 events. -/
def userCkRun (s : CkState) (evs : List UserCkEvent) : CkState :=
  evs.foldl userCkStep s

/-- Run a sequence of checkpoint-2 events. -/
def payCkRun (s : CkState) (evs : List PayCkEvent) : CkState :=
  evs.foldl payCkStep s

/-! Concrete fixtures and observation predicates used by the claim
statements, witnesses and counterexamples. -/

/-- A baseline conversation value for concrete instantiations. -/
def baseConv : Conversation := {
  id := "conv1"
  sellerId := "919876543210@c.us"
  sellerName := "Seller One"
  couponType := CouponType.lunch
  state := ConversationState.AWAITING_PAYMENT_INFO
  price := FIXED_PRICE
  upiId := none
  groupId := "group1"
  groupName := "Mess Coupons"
  originalMessageId := "msg1"
  createdAt := 100
  updatedAt := 100 }

/-- A baseline sell message for concrete instantiations. -/
def baseSell : SellMessage := {
  messageId := "sm1"
  senderId := "917000000001@c.us"
  senderName := "Seller Two"
  groupId := "group1"
  groupName := "Mess Coupons"
  couponType := CouponType.lunch
  rawMessage := "selling lunch coupon"
  timestamp := 200 }

/-- A trivial collaborator environment: no test accounts, no preferences. -/
def baseEnv : Env := ⟨fun _ => false, fun _ => none⟩

/-- Recognizes a structured terminal-outcome summary to the operator: the
failure summary of `failConversation` or the purchased-coupon caption
forwarded on completion. -/
def isTerminalSummary (e : Effect) : Bool :=
  match e with
  | Effect.msgToSelf (SelfMsg.failedSummary _ _ _ _ _ _) => true
  | Effect.mediaToSelf _ (SelfMsg.purchasedCaption _ _) => true
  | _ => false

/-- Recognizes the deliverable-request message (the payment confirmation
that asks the counterparty for the coupon). -/
def isDeliverableRequest (e : Effect) : Bool :=
  match e with
  | Effect.msgToSeller _ BotMsg.paymentConfirmation => true
  | _ => false

/-- A conversation suspended on the checkpoints. -/
def conv3 : Conversation :=
  { baseConv with
      state := ConversationState.PAYMENT_PENDING
      upiId := some "seller@upi" }

/-- Store holding only `conv3`. -/
def st3 : MState := { conversations := [("conv1", conv3)] }

/-- Store holding `conv3` plus a buffered early attachment. -/
def st3b : MState :=
  { conversations := [("conv1", conv3)]
    earlyCouponImages := [("conv1", 42)] }

/-- A conversation suspended in `PAYMENT_PENDING`. -/
def conv6 : Conversation :=
  { baseConv with
      state := ConversationState.PAYMENT_PENDING
      upiId := some "seller@upi" }

/-- Store holding only `conv6`. -/
def st6 : MState := { conversations := [("conv1", conv6)] }

/-- Oracle reporting a high-confidence withdrawal signal. -/
def oracle6 : Oracle := { cancellation := ⟨true, 9/10⟩ }

/-- A conversation in `AWAITING_COUPON` with the escalation counter at 2. -/
def conv6c : Conversation :=
  { baseConv with state := ConversationState.AWAITING_COUPON }

/-- Store for the post-payment cancellation fork. -/
def st6c : MState :=
  { conversations := [("conv1", conv6c)]
    cancelFollowUp := [("conv1", 2)] }

/-- Invariant of a checkpoint registered for `convId`: only `convId` can be
in the resolver map and the pending pointer; the resolver has been invoked
at most once, and as soon as it has been invoked (by any channel or timer)
its map entry is gone, so no further invocation is possible. -/
def ckInv (convId : String) (s : CkState) : Prop :=
  (∀ r ∈ s.resolvers, r = convId) ∧
  (s.pending = none ∨ s.pending = some convId) ∧
  (s.calls = [] ∨ ∃ v, s.calls = [(convId, v)]) ∧
  (s.calls ≠ [] → s.resolvers.contains convId = false)

/-! Association-list lemmas shared by the claim proofs. -/

theorem alGet_alSet_self {α : Type} (l : List (String × α)) (k : String)
    (v : α) : alGet (alSet l k v) k = some v := by
  unfold alGet alSet
  by_cases hg : (l.find? (fun p => p.1 = k)).isSome
  · rw [if_pos hg, List.find?_map]
    have hcong : ((fun p : String × α => decide (p.1 = k)) ∘
        (fun p => if p.1 = k then (k, v) else p)) =
        fun p : String × α => decide (p.1 = k) := by
      funext p
      by_cases hp : p.1 = k <;> simp [hp]
    rw [hcong]
    obtain ⟨q, hq⟩ := Option.isSome_iff_exists.mp hg
    have hq1 : q.1 = k := by simpa using List.find?_some hq
    rw [hq]
    simp [hq1]
  · have hn : l.find? (fun p => decide (p.1 = k)) = none :=
      Option.not_isSome_iff_eq_none.mp hg
    rw [if_neg hg, List.find?_append, hn]
    simp

theorem alGet_alSet_ne {α : Type} (l : List (String × α)) (k k' : String)
    (v : α) (hne : k' ≠ k) : alGet (alSet l k v) k' = alGet l k' := by
  unfold alGet alSet
  by_cases hg : (l.find? (fun p => p.1 = k)).isSome
  · rw [if_pos hg, List.find?_map]
    have hcong : ((fun p : String × α => decide (p.1 = k')) ∘
        (fun p => if p.1 = k then (k, v) else p)) =
        fun p : String × α => decide (p.1 = k') := by
      funext p
      by_cases hp : p.1 = k <;> simp [hp, fun h => hne (h : k' = k).symm.symm]
    rw [hcong]
    cases hfq : l.find? (fun p : String × α => decide (p.1 = k')) with
    | none => simp
    | some q =>
        have hq1 : q.1 = k' := by simpa using List.find?_some hfq
        have hq2 : ¬ q.1 = k := fun h => hne (hq1 ▸ h)
        simp [hq2]
  · rw [if_neg hg, List.find?_append]
    have hkk : ¬ ((k : String) = k') := fun h => hne h.symm
    have h2 : ([(k, v)].find? (fun p : String × α => decide (p.1 = k'))) =
        none := by
      simp [hkk]
    rw [h2]
    simp

theorem alGet_alDel_self {α : Type} (l : List (String × α)) (k : String) :
    alGet (alDel l k) k = none := by
  unfold alGet alDel
  induction l with
  | nil => rfl
  | cons p t ih =>
    by_cases hp : p.1 = k
    · set_option linter.unnecessarySimpa false in
      simpa [List.filter_cons, hp] using ih
    · set_option linter.unnecessarySimpa false in
      simpa [List.filter_cons, hp] using ih

theorem alGet_alDel_ne {α : Type} (l : List (String × α)) (k k' : String)
    (hne : k' ≠ k) : alGet (alDel l k) k' = alGet l k' := by
  unfold alGet alDel
  induction l with
  | nil => rfl
  | cons p t ih =>
    by_cases hp : p.1 = k
    · have hp2 : ¬ p.1 = k' := fun h => hne (h.symm.trans hp)
      simp only [List.filter_cons, hp, decide_not]
      simpa [hp2] using ih
    · by_cases hp2 : p.1 = k'
      · simp [List.filter_cons, hp, hp2, hne]
      · simp only [List.filter_cons, hp, decide_not]
        simpa [hp, hp2] using ih

/-! ## Claim C1 — singleton active-conversation invariant -/

/-- C1: at most one conversation is marked active at any instant (the
nullable `currentConversationId` field); while it points to a non-terminal
conversation of seller S, `startOrResumeConversation` for an offer from a
different seller returns `null` with no mutation at all (hence creates no
conversation), and a conversation entering `COMPLETED` or `FAILED` through
a finalizer releases the slot. -/
theorem C1_singleton_active_slot
    (env : Env) (st : MState) (sellMessage : SellMessage) (o : Oracle)
    (newId : String) (todayStart now : Nat) (cid : String)
    (conv c2 : Conversation) (img : Nat) (reason : String)
    (hcur : st.currentConversationId = some cid)
    (hconv : alGet st.conversations cid = some conv)
    (hnt : conv.state.isTerminal = false)
    (hdiff : conv.sellerId ≠ sellMessage.senderId) :
    (∀ id1 id2 : String, st.currentConversationId = some id1 →
        st.currentConversationId = some id2 → id1 = id2) ∧
    startOrResumeConversation env st sellMessage o newId todayStart now =
      (st, none) ∧
    (completeConversation st c2 img now).currentConversationId = none ∧
    (failConversation st c2 reason now).currentConversationId ≠ some c2.id := by
  refine ⟨?_, ?_, ?_, ?_⟩
  · intro id1 id2 h1 h2
    rw [h1] at h2
    exact (Option.some.injEq _ _).mp h2
  · unfold startOrResumeConversation
    by_cases hb : isSellerBlockedToday env st todayStart sellMessage.senderId
    · simp [hb]
    · simp [hb, hcur, hconv, hnt, hdiff]
  · simp [completeConversation, emit, emits, putConv, sendToSeller]
  · by_cases hslot : st.currentConversationId = some c2.id
    · simp [failConversation, emit, emits, putConv, hslot]
    · simp [failConversation, emit, emits, putConv, hslot]

/-- Witness for C1 at a concrete state: slot held by a non-terminal
conversation of one seller, offer from a different seller. -/
theorem C1_singleton_active_slot_witness :
    startOrResumeConversation baseEnv
      { conversations := [("conv1", baseConv)]
        currentConversationId := some "conv1" }
      baseSell {} "newConv" 0 200 =
      ({ conversations := [("conv1", baseConv)]
         currentConversationId := some "conv1" }, none) :=
  (C1_singleton_active_slot baseEnv
    { conversations := [("conv1", baseConv)]
      currentConversationId := some "conv1" }
    baseSell {} "newConv" 0 200 "conv1" baseConv baseConv 7 "r"
    rfl (by decide) (by decide) (by decide)).2.1

/-! ## Claim C5 — idempotent manual finalization -/

/-- C5: `manuallyCompleteConversation` (`forceComplete`) and
`manuallyFailConversation` (`forceFail`) on an already-terminal conversation
return a failure `Result` and perform no mutation whatsoever: the state —
store, slot, buffers and the whole effect trace (history records, sink
invocations, messages) — is returned unchanged. -/
theorem C5_manual_finalizers_idempotent (st : MState)
    (conversationId reason : String) (now : Nat) (conv : Conversation)
    (hconv : alGet st.conversations conversationId = some conv)
    (hterm : conv.state = ConversationState.COMPLETED ∨
      conv.state = ConversationState.FAILED) :
    (manuallyCompleteConversation st conversationId now).1 = st ∧
    (manuallyCompleteConversation st conversationId now).2.success = false ∧
    (manuallyCompleteConversation st conversationId now).2.error.isSome = true ∧
    (manuallyFailConversation st conversationId reason now).1 = st ∧
    (manuallyFailConversation st conversationId reason now).2.success = false ∧
    (manuallyFailConversation st conversationId reason now).2.error.isSome =
      true := by
  rcases hterm with h | h <;>
    simp [manuallyCompleteConversation, manuallyFailConversation, hconv, h]

/-- Witness for C5 at a concrete terminal conversation. -/
theorem C5_manual_finalizers_idempotent_witness :
    (manuallyCompleteConversation
      { conversations :=
          [("conv1", { baseConv with state := ConversationState.COMPLETED })] }
      "conv1" 500).1 =
      { conversations :=
          [("conv1", { baseConv with state := ConversationState.COMPLETED })] } ∧
    (manuallyFailConversation
      { conversations :=
          [("conv1", { baseConv with state := ConversationState.COMPLETED })] }
      "conv1" "stop" 500).2.success = false := by
  have h := C5_manual_finalizers_idempotent
    { conversations :=
        [("conv1", { baseConv with state := ConversationState.COMPLETED })] }
    "conv1" "stop" 500 { baseConv with state := ConversationState.COMPLETED }
    (by decide) (Or.inl rfl)
  exact ⟨h.1, h.2.2.2.2.1⟩

/-! ## Claim C10 — implicit daily seller lockout -/

/-- C10: an offer whose sender (not a test account) already has a `FAILED`
conversation created at or after the start of the current day is rejected:
`startOrResumeConversation` returns `null` and mutates nothing, regardless
of the offered coupon category. -/
theorem C10_daily_seller_lockout (env : Env) (st : MState)
    (sellMessage : SellMessage) (o : Oracle) (newId : String)
    (todayStart now : Nat) (c : Conversation)
    (hmem : c ∈ st.conversations.map (fun p => p.2))
    (hsel : c.sellerId = sellMessage.senderId)
    (hfail : c.state = ConversationState.FAILED)
    (hday : todayStart ≤ c.createdAt)
    (htest : env.isTestAccount sellMessage.senderId = false) :
    startOrResumeConversation env st sellMessage o newId todayStart now =
      (st, none) := by
  have hb : isSellerBlockedToday env st todayStart sellMessage.senderId =
      true := by
    unfold isSellerBlockedToday
    rw [if_neg (by simp [htest])]
    rw [List.any_eq_true]
    exact ⟨c, hmem, by simp [hsel, hfail, hday]⟩
  unfold startOrResumeConversation
  simp [hb]

/-- Witness for C10: a seller with a failed conversation created today
offers a dinner coupon (different category) and is still rejected. -/
theorem C10_daily_seller_lockout_witness :
    startOrResumeConversation baseEnv
      { conversations :=
          [("conv1", { baseConv with state := ConversationState.FAILED })] }
      { baseSell with
          senderId := baseConv.sellerId
          couponType := CouponType.dinner }
      {} "newConv" 50 200 =
      ({ conversations :=
          [("conv1", { baseConv with state := ConversationState.FAILED })] },
        none) :=
  C10_daily_seller_lockout baseEnv
    { conversations :=
        [("conv1", { baseConv with state := ConversationState.FAILED })] }
    { baseSell with
        senderId := baseConv.sellerId
        couponType := CouponType.dinner }
    {} "newConv" 50 200 { baseConv with state := ConversationState.FAILED }
    (by decide) rfl rfl (by decide) rfl

/-! ## Claim C8 — finalizer cleanup postcondition -/

/-- C8 counterexample: the failure finalizer (and likewise the completion
finalizer) does NOT remove the cancellation escalation-counter entry for the
conversation: on a concrete non-terminal conversation whose counter sits at
1, the entry is still present — with value 1 — after either finalizer. -/
theorem C8_finalizer_cleanup_counterexample :
    baseConv.state.isTerminal = false ∧
    alGet (failConversation
      { conversations := [("conv1", baseConv)]
        cancelFollowUp := [("conv1", 1)] }
      baseConv "Seller cancelled the deal" 900).cancelFollowUp "conv1" =
        some 1 ∧
    alGet (completeConversation
      { conversations := [("conv1", baseConv)]
        cancelFollowUp := [("conv1", 1)] }
      baseConv 7 900).cancelFollowUp "conv1" = some 1 := by
  refine ⟨by decide, ?_, ?_⟩ <;>
    simp [failConversation, completeConversation, emit, emits, putConv,
      sendToSeller, alGet]

/-- C8 amended: each finalizer removes, for the finalized conversation's id,
both reconciliation-buffer entries (the early-image slot and the cumulative
image log), but leaves the cancellation escalation-counter map completely
untouched (that entry is cleared by the call sites, the inline completion
path, and the manual overrides — not by the finalizers). -/
theorem C8_finalizer_cleanup_amended (st : MState) (conv : Conversation)
    (reason : String) (img : Nat) (now : Nat) :
    alGet (failConversation st conv reason now).earlyCouponImages conv.id =
      none ∧
    alGet (failConversation st conv reason now).receivedImages conv.id =
      none ∧
    (failConversation st conv reason now).cancelFollowUp =
      st.cancelFollowUp ∧
    alGet (completeConversation st conv img now).earlyCouponImages conv.id =
      none ∧
    alGet (completeConversation st conv img now).receivedImages conv.id =
      none ∧
    (completeConversation st conv img now).cancelFollowUp =
      st.cancelFollowUp := by
  by_cases hslot : st.currentConversationId = some conv.id <;>
    simp [failConversation, completeConversation, emit, emits, putConv,
      sendToSeller, hslot, alGet_alDel_self]

/-! ## Claim C9 — exactly one operator summary per terminal transition -/


/-- C9 counterexample: a terminal transition taken on the
startup-resumption path produces NO operator summary.  A persisted
`PAYMENT_PENDING` conversation 15 minutes stale is marked `FAILED` by
`resumeIncompleteConversations`, yet the run emits zero structured summary
messages. -/
theorem C9_terminal_summary_counterexample :
    ((alGet (resumeIncompleteConversations
        { conversations := [("conv1",
            { baseConv with
                state := ConversationState.PAYMENT_PENDING
                upiId := some "seller@upi"
                updatedAt := 0 })] }
        (fun _ => false) (fun _ => {}) 900000).conversations "conv1").map
          (fun c => c.state) = some ConversationState.FAILED) ∧
    (resumeIncompleteConversations
        { conversations := [("conv1",
            { baseConv with
                state := ConversationState.PAYMENT_PENDING
                upiId := some "seller@upi"
                updatedAt := 0 })] }
        (fun _ => false) (fun _ => {}) 900000).effects.countP
      isTerminalSummary = 0 := by
  constructor <;> decide

/-- C9 amended: every terminal transition taken through the finalizers
(`failConversation`, `completeConversation`) emits exactly one structured
operator summary — covering category, counterparty, reason and refund flags
on failure, and category plus counterparty with the forwarded attachment on
completion; the startup-resumption inactivity path, which flips the state
to `FAILED` directly, emits none. -/
theorem C9_terminal_summary_amended (st : MState) (conv : Conversation)
    (reason : String) (img : Nat) (now : Nat) :
    (failConversation st conv reason now).effects.countP isTerminalSummary =
      st.effects.countP isTerminalSummary + 1 ∧
    (completeConversation st conv img now).effects.countP isTerminalSummary =
      st.effects.countP isTerminalSummary + 1 := by
  by_cases hslot : st.currentConversationId = some conv.id <;>
    simp [failConversation, completeConversation, emit, emits, putConv,
      sendToSeller, hslot, List.countP_append, isTerminalSummary,
      List.countP_cons]

/-! ## Claim C4 — follow-up escalation bound and soft failure -/

/-- C4: on every firing of the coupon follow-up timer the counter stays at
or below its ceiling of 8; on a firing that finds the counter at the
ceiling (with no reconciled image available), exactly one operator alert is
emitted and nothing else, the active slot is released, the conversation is
left untouched in `AWAITING_COUPON` (no transition to `FAILED`), and the
timer does not reschedule itself, so no further follow-up message is sent
for this conversation. -/
theorem C4_follow_up_escalation (st : MState) (convId : String)
    (chatMedia : List Nat) (now : Nat) (conv : Conversation)
    (hconv : alGet st.conversations convId = some conv)
    (hid : conv.id = convId) :
    (conv.couponFollowUpCount.getD 0 ≤ MAX_FOLLOW_UPS →
      ∀ conv', alGet ((followUpTick st convId chatMedia now).1).conversations
          convId = some conv' →
        conv'.couponFollowUpCount.getD 0 ≤ MAX_FOLLOW_UPS) ∧
    (conv.state = ConversationState.AWAITING_COUPON →
     MAX_FOLLOW_UPS ≤ conv.couponFollowUpCount.getD 0 →
     alGet st.earlyCouponImages convId = none →
     scanChatForCouponImage st convId chatMedia = none →
      (followUpTick st convId chatMedia now).1.effects = st.effects ++
        [Effect.msgToSelf (SelfMsg.couponNotReceivedAlert conv.sellerName)] ∧
      (followUpTick st convId chatMedia now).1.currentConversationId = none ∧
      (followUpTick st convId chatMedia now).1.conversations =
        st.conversations ∧
      (followUpTick st convId chatMedia now).2 = false) := by
  constructor
  · intro hbound conv' hconv'
    simp only [followUpTick, hconv] at hconv'
    by_cases hterm : conv.state = ConversationState.COMPLETED ∨
        conv.state = ConversationState.FAILED
    · rw [if_pos hterm] at hconv'
      rw [hconv] at hconv'
      cases hconv'
      exact hbound
    · rw [if_neg hterm] at hconv'
      by_cases hstate : conv.state = ConversationState.AWAITING_COUPON
      · rw [if_neg (by simp [hstate])] at hconv'
        cases hearly : alGet st.earlyCouponImages convId with
        | some e =>
            simp only [hearly, completeConversation, emit, emits, putConv,
              sendToSeller, addMessage, hid, alGet_alSet_self] at hconv'
            cases hconv'
            simpa using hbound
        | none =>
          simp only [hearly] at hconv'
          cases hscan : scanChatForCouponImage st convId chatMedia with
          | some e =>
              simp only [hscan, completeConversation, emit, emits, putConv,
                sendToSeller, addMessage, hid, alGet_alSet_self] at hconv'
              cases hconv'
              simpa using hbound
          | none =>
              simp only [hscan] at hconv'
              by_cases hc : MAX_FOLLOW_UPS ≤ conv.couponFollowUpCount.getD 0
              · rw [if_pos hc] at hconv'
                simp only [handleCouponNotReceived, emit] at hconv'
                rw [hconv] at hconv'
                cases hconv'
                exact hbound
              · rw [if_neg hc] at hconv'
                simp only [emit, putConv, sendToSeller, addMessage, hid,
                  alGet_alSet_self] at hconv'
                cases hconv'
                simp only [Option.getD_some]
                unfold MAX_FOLLOW_UPS at hc ⊢
                omega
      · rw [if_pos (by simpa using hstate)] at hconv'
        rw [hconv] at hconv'
        cases hconv'
        exact hbound
  · intro hstate hceil hearly hscan
    simp only [followUpTick, hconv]
    rw [if_neg (by simp [hstate])]
    rw [if_neg (by simp [hstate])]
    simp only [hearly, hscan]
    rw [if_pos hceil]
    simp [handleCouponNotReceived, emit]

/-- Witness for C4: a conversation in `AWAITING_COUPON` whose follow-up
counter sits at the ceiling of 8; the tick emits exactly the one operator
alert, releases the slot, leaves the store untouched and does not
reschedule. -/
theorem C4_follow_up_escalation_witness :
    (followUpTick
      { conversations := [("conv1",
          { baseConv with
              state := ConversationState.AWAITING_COUPON
              couponFollowUpCount := some 8 })]
        currentConversationId := some "conv1" } "conv1" [] 1000).1.effects =
      [Effect.msgToSelf (SelfMsg.couponNotReceivedAlert "Seller One")] ∧
    (followUpTick
      { conversations := [("conv1",
          { baseConv with
              state := ConversationState.AWAITING_COUPON
              couponFollowUpCount := some 8 })]
        currentConversationId := some "conv1" } "conv1" [] 1000).1.currentConversationId = none ∧
    (followUpTick
      { conversations := [("conv1",
          { baseConv with
              state := ConversationState.AWAITING_COUPON
              couponFollowUpCount := some 8 })]
        currentConversationId := some "conv1" } "conv1" [] 1000).2 = false := by
  have h := (C4_follow_up_escalation
    { conversations := [("conv1",
        { baseConv with
            state := ConversationState.AWAITING_COUPON
            couponFollowUpCount := some 8 })]
      currentConversationId := some "conv1" } "conv1" [] 1000
    { baseConv with
        state := ConversationState.AWAITING_COUPON
        couponFollowUpCount := some 8 }
    (by decide) rfl).2 rfl (by decide) rfl rfl
  exact ⟨h.1, h.2.1, h.2.2.2⟩

/-! ## Claim C3 — reconciliation correctness -/


/-- C3: an attachment received while the conversation is in a state before
`AWAITING_COUPON` (here: while suspended in `PAYMENT_PENDING` on the
checkpoints) is stored in the per-conversation early-image reconciliation
buffer; when checkpoint 2 then resolves `true`, the stored attachment is
found and consumed exactly once — the buffer entry is removed — the
conversation transitions directly to `COMPLETED` with exactly one success
record, the attachment itself is persisted, and no deliverable-request
message is ever sent to the counterparty. -/
theorem C3_reconciliation_correctness (env : Env) (st st2 : MState)
    (sellerId msg : String) (img : Nat) (o o2 : Oracle) (now now2 : Nat)
    (conv conv2 : Conversation)
    (hfind : findActiveBySeller st sellerId = some conv)
    (hstate : conv.state = ConversationState.PAYMENT_PENDING)
    (hupi : jsTruthy conv2.upiId = true)
    (huc : o2.userConfirmed = true)
    (hpd : o2.paymentDone = true)
    (hearly : alGet st2.earlyCouponImages conv2.id = some img) :
    (alGet (handleSellerMessage env st sellerId msg (some img) o
        now).earlyCouponImages conv.id = some img ∧
     (alGet (handleSellerMessage env st sellerId msg (some img) o
        now).conversations conv.id).map (fun c => c.state) =
       some ConversationState.PAYMENT_PENDING) ∧
    ((alGet (requestUserConfirmationAndPay st2 conv2 o2
        now2).conversations conv2.id).map (fun c => c.state) =
       some ConversationState.COMPLETED ∧
     alGet (requestUserConfirmationAndPay st2 conv2 o2
        now2).earlyCouponImages conv2.id = none ∧
     (requestUserConfirmationAndPay st2 conv2 o2 now2).effects.countP
        (fun e => e = Effect.recordedSuccess conv2.id) =
       st2.effects.countP (fun e => e = Effect.recordedSuccess conv2.id) + 1 ∧
     (requestUserConfirmationAndPay st2 conv2 o2 now2).effects.countP
        isDeliverableRequest =
       st2.effects.countP isDeliverableRequest ∧
     Effect.savedCouponImage conv2.couponType img ∈
       (requestUserConfirmationAndPay st2 conv2 o2 now2).effects) := by
  constructor
  · simp only [handleSellerMessage, hfind]
    rw [if_pos (by simp [addMessage, hstate])]
    simp only [addMessage, handlePaymentPending, hstate, emit, putConv,
      sendToSeller]
    constructor
    · simp [alGet_alSet_self]
    · simp [alGet_alSet_self, hstate]
  · simp only [requestUserConfirmationAndPay, huc, hpd, hupi, hearly, emit,
      emits, putConv, sendToSeller, addMessage, if_true]
    refine ⟨?_, ?_, ?_, ?_, ?_⟩
    · simp [alGet_alSet_self]
    · simp [alGet_alDel_self]
    · simp [List.countP_append, List.countP_cons, isDeliverableRequest]
    · simp [List.countP_append, List.countP_cons, isDeliverableRequest]
    · simp




/-- Witness for C3: an image arriving during `PAYMENT_PENDING` lands in the
early buffer, and a positive checkpoint-2 resolution then completes the
conversation from that buffer. -/
theorem C3_reconciliation_correctness_witness :
    alGet (handleSellerMessage baseEnv st3 baseConv.sellerId "" (some 42) {}
      300).earlyCouponImages "conv1" = some 42 ∧
    (alGet (requestUserConfirmationAndPay st3b conv3
      { userConfirmed := true, paymentDone := true } 400).conversations
        "conv1").map (fun c => c.state) = some ConversationState.COMPLETED := by
  have h := C3_reconciliation_correctness baseEnv st3 st3b baseConv.sellerId
    "" 42 {} { userConfirmed := true, paymentDone := true } 300 400 conv3
    conv3 (by decide) rfl (by decide) rfl rfl (by decide)
  exact ⟨h.1.1, h.2.1⟩

/-! ## Claim C7 — refund sub-flow -/

/-- C7: in `AWAITING_REFUND` a high-confidence refund-confirmation signal
transitions the conversation to `AWAITING_REFUND_SCREENSHOT` and requests
proof; in `AWAITING_REFUND_SCREENSHOT`, an attachment sets both
refund-received flags, sends exactly one refund-thanks message, notifies
the operator, and transitions to `FAILED` with the refund-received reason,
while a repeated confirmation without an attachment re-requests the
screenshot without changing state. -/
theorem C7_refund_subflow (st : MState) (conv : Conversation) (msg : String)
    (img : Nat) (o : Oracle) (now : Nat) :
    (o.refundConfirm.isRefundConfirmed = true →
     (1 : ℚ)/2 < o.refundConfirm.confidence →
      (alGet (handleAwaitingRefund st conv msg o now).conversations
          conv.id).map (fun c => c.state) =
        some ConversationState.AWAITING_REFUND_SCREENSHOT ∧
      (handleAwaitingRefund st conv msg o now).effects = st.effects ++
        [Effect.msgToSeller conv.sellerId BotMsg.askRefundScreenshot,
         Effect.persistedState]) ∧
    ((alGet (handleAwaitingRefundScreenshot st conv msg (some img) o
        now).conversations conv.id).map (fun c =>
          (c.state, c.refundReceived, c.refundScreenshotReceived,
           c.failureReason)) =
       some (ConversationState.FAILED, true, true,
         some "Seller cancelled after payment - REFUND RECEIVED") ∧
     (handleAwaitingRefundScreenshot st conv msg (some img) o
        now).effects.countP
        (fun e => e = Effect.msgToSeller conv.sellerId BotMsg.refundThanks) =
       st.effects.countP
        (fun e => e = Effect.msgToSeller conv.sellerId BotMsg.refundThanks) +
         1 ∧
     Effect.msgToSelf (SelfMsg.refundReceivedNote conv.sellerName) ∈
       (handleAwaitingRefundScreenshot st conv msg (some img) o
        now).effects) ∧
    (o.refundConfirm.isRefundConfirmed = true →
      (alGet (handleAwaitingRefundScreenshot st conv msg none o
          now).conversations conv.id).map (fun c => c.state) =
        some conv.state ∧
      (handleAwaitingRefundScreenshot st conv msg none o now).effects =
        st.effects ++
          [Effect.msgToSeller conv.sellerId BotMsg.askRefundScreenshot]) := by
  refine ⟨?_, ?_, ?_⟩
  · intro hrc hconf
    simp only [handleAwaitingRefund]
    rw [if_pos ⟨hrc, hconf⟩]
    simp only [emit, putConv, sendToSeller, addMessage]
    constructor
    · simp [alGet_alSet_self]
    · simp
  · simp only [handleAwaitingRefundScreenshot, failConversation, emit,
      emits, putConv, sendToSeller, addMessage]
    refine ⟨?_, ?_, ?_⟩
    · simp [alGet_alSet_self]
    · simp [List.countP_append, List.countP_cons]
    · simp
  · intro hrc
    simp only [handleAwaitingRefundScreenshot]
    rw [if_pos hrc]
    simp only [emit, putConv, sendToSeller, addMessage]
    constructor
    · simp [alGet_alSet_self]
    · simp

/-- Witness for C7: concrete runs of both refund states. -/
theorem C7_refund_subflow_witness :
    (alGet (handleAwaitingRefund
        { conversations := [("conv1",
            { baseConv with state := ConversationState.AWAITING_REFUND })] }
        { baseConv with state := ConversationState.AWAITING_REFUND }
        "refund kar diya" { refundConfirm := ⟨true, 9/10⟩ }
        700).conversations "conv1").map (fun c => c.state) =
      some ConversationState.AWAITING_REFUND_SCREENSHOT ∧
    (alGet (handleAwaitingRefundScreenshot
        { conversations := [("conv1",
            { baseConv with
                state := ConversationState.AWAITING_REFUND_SCREENSHOT })] }
        { baseConv with
            state := ConversationState.AWAITING_REFUND_SCREENSHOT }
        "" (some 11) {} 800).conversations "conv1").map (fun c =>
          (c.state, c.refundReceived, c.refundScreenshotReceived,
           c.failureReason)) =
      some (ConversationState.FAILED, true, true,
        some "Seller cancelled after payment - REFUND RECEIVED") := by
  have h1 := (C7_refund_subflow
    { conversations := [("conv1",
        { baseConv with state := ConversationState.AWAITING_REFUND })] }
    { baseConv with state := ConversationState.AWAITING_REFUND }
    "refund kar diya" 11 { refundConfirm := ⟨true, 9/10⟩ } 700).1 rfl
    (by norm_num)
  have h2 := (C7_refund_subflow
    { conversations := [("conv1",
        { baseConv with
            state := ConversationState.AWAITING_REFUND_SCREENSHOT })] }
    { baseConv with state := ConversationState.AWAITING_REFUND_SCREENSHOT }
    "" 11 {} 800).2.1
  exact ⟨h1.1, h2.1⟩

/-! ## Claim C6 — cancellation sub-protocol -/




/-- C6 counterexample: the cancellation sub-protocol is NOT triggered in
every pre-terminal state.  `PAYMENT_PENDING` is pre-terminal, the
collaborator reports a high-confidence withdrawal, yet the dispatcher
leaves the escalation counter untouched (no entry is created) and emits no
probe — the handler for `PAYMENT_PENDING` never consults the cancellation
detector. -/
theorem C6_cancellation_counterexample :
    ConversationState.isTerminal ConversationState.PAYMENT_PENDING = false ∧
    oracle6.cancellation.isCancelling = true ∧
    (1 : ℚ)/2 < oracle6.cancellation.confidence ∧
    alGet (handleSellerMessage baseEnv st6 baseConv.sellerId
      "dont want to sell it" none oracle6 500).cancelFollowUp "conv1" =
      none ∧
    (handleSellerMessage baseEnv st6 baseConv.sellerId
      "dont want to sell it" none oracle6 500).effects.countP
      (fun e => e = Effect.msgToSeller baseConv.sellerId
        BotMsg.cancelFollowUpProbe) = 0 := by
  refine ⟨rfl, rfl, by norm_num [oracle6], ?_, ?_⟩ <;> decide

/-- C6 amended: the escalation sub-protocol runs in the two states whose
handlers consult the cancellation detector — `AWAITING_PAYMENT_INFO`
(payment not yet asserted) and `AWAITING_COUPON` (payment asserted) — and
there behaves as claimed: a high-confidence withdrawal drives the counter
through 0 → 1 (probe) → 2 (persuasion) without changing FSM state; at 2 the
pre-payment handler fails the conversation with a counterparty-cancelled
reason while the post-payment handler transitions to `AWAITING_REFUND` with
the refund-requested flag set and the operator notified, both clearing the
counter; and a renewed-agreement message clears the counter without a
forced transition.  The other pre-terminal states never engage the
sub-protocol (counterexample above). -/
theorem C6_cancellation_subprotocol_amended (st : MState)
    (conv : Conversation) (msg : String) (o : Oracle) (now : Nat)
    (hwait : isWaitMessage (strTrim (strLower msg)) = false) :
    (o.cancellation.isCancelling = true →
     (1 : ℚ)/2 < o.cancellation.confidence →
      ((alGet st.cancelFollowUp conv.id).getD 0 = 0 →
        alGet (handleAwaitingPaymentInfo st conv msg o now).cancelFollowUp
          conv.id = some 1 ∧
        (handleAwaitingPaymentInfo st conv msg o now).effects = st.effects ++
          [Effect.msgToSeller conv.sellerId BotMsg.cancelFollowUpProbe] ∧
        (alGet (handleAwaitingPaymentInfo st conv msg o
            now).conversations conv.id).map (fun c => c.state) =
          some conv.state) ∧
      (alGet st.cancelFollowUp conv.id = some 1 →
        alGet (handleAwaitingPaymentInfo st conv msg o now).cancelFollowUp
          conv.id = some 2 ∧
        (handleAwaitingPaymentInfo st conv msg o now).effects = st.effects ++
          [Effect.msgToSeller conv.sellerId BotMsg.convinceSeller] ∧
        (alGet (handleAwaitingPaymentInfo st conv msg o
            now).conversations conv.id).map (fun c => c.state) =
          some conv.state) ∧
      (alGet st.cancelFollowUp conv.id = some 2 →
        alGet (handleAwaitingPaymentInfo st conv msg o now).cancelFollowUp
          conv.id = none ∧
        (alGet (handleAwaitingPaymentInfo st conv msg o
            now).conversations conv.id).map (fun c =>
              (c.state, c.failureReason)) =
          some (ConversationState.FAILED,
            some "Seller cancelled the deal"))) ∧
    (o.cancellation.isCancelling = true →
     (1 : ℚ)/2 < o.cancellation.confidence →
     alGet st.earlyCouponImages conv.id = none →
     scanChatForCouponImage st conv.id o.chatMedia = none →
      ((alGet st.cancelFollowUp conv.id).getD 0 = 0 →
        alGet (handleAwaitingCoupon st conv msg none o now).cancelFollowUp
          conv.id = some 1 ∧
        (handleAwaitingCoupon st conv msg none o now).effects = st.effects ++
          [Effect.msgToSeller conv.sellerId BotMsg.cancelFollowUpProbe] ∧
        (alGet (handleAwaitingCoupon st conv msg none o
            now).conversations conv.id).map (fun c => c.state) =
          some conv.state) ∧
      (alGet st.cancelFollowUp conv.id = some 1 →
        alGet (handleAwaitingCoupon st conv msg none o now).cancelFollowUp
          conv.id = some 2 ∧
        (handleAwaitingCoupon st conv msg none o now).effects = st.effects ++
          [Effect.msgToSeller conv.sellerId BotMsg.convinceSeller] ∧
        (alGet (handleAwaitingCoupon st conv msg none o
            now).conversations conv.id).map (fun c => c.state) =
          some conv.state) ∧
      (alGet st.cancelFollowUp conv.id = some 2 →
        alGet (handleAwaitingCoupon st conv msg none o now).cancelFollowUp
          conv.id = none ∧
        (alGet (handleAwaitingCoupon st conv msg none o
            now).conversations conv.id).map (fun c =>
              (c.state, c.refundRequested)) =
          some (ConversationState.AWAITING_REFUND, true) ∧
        Effect.msgToSelf (SelfMsg.cancelledAfterPayment conv.sellerName) ∈
          (handleAwaitingCoupon st conv msg none o now).effects)) ∧
    (o.cancellation.isCancelling = false →
     o.analysis.agreesToSale = some true →
     o.analysis.available = none →
     o.analysis.needsClarification = false →
     o.analysis.price = none →
     o.analysis.useSameNumber = false →
     o.analysis.upiId = none →
     o.analysis.phoneNumber = none →
     ∀ k, alGet st.cancelFollowUp conv.id = some k → 0 < k →
      alGet (handleAwaitingPaymentInfo st conv msg o now).cancelFollowUp
        conv.id = none ∧
      (alGet (handleAwaitingPaymentInfo st conv msg o
          now).conversations conv.id).map (fun c => c.state) =
        some conv.state) := by
  refine ⟨?_, ?_, ?_⟩
  · intro hcanc hconf
    refine ⟨?_, ?_, ?_⟩
    · intro hc0
      simp only [handleAwaitingPaymentInfo]
      rw [if_neg (by simp [hwait])]
      rw [if_pos ⟨hcanc, hconf⟩]
      rw [if_pos hc0]
      simp only [emit, putConv, sendToSeller, addMessage]
      exact ⟨by simp [alGet_alSet_self], by simp,
        by simp [alGet_alSet_self]⟩
    · intro hc1
      simp only [handleAwaitingPaymentInfo]
      rw [if_neg (by simp [hwait])]
      rw [if_pos ⟨hcanc, hconf⟩]
      rw [if_neg (by simp [hc1])]
      rw [if_pos (by simp [hc1])]
      simp only [emit, putConv, sendToSeller, addMessage]
      exact ⟨by simp [alGet_alSet_self], by simp,
        by simp [alGet_alSet_self]⟩
    · intro hc2
      simp only [handleAwaitingPaymentInfo]
      rw [if_neg (by simp [hwait])]
      rw [if_pos ⟨hcanc, hconf⟩]
      rw [if_neg (by simp [hc2])]
      rw [if_neg (by simp [hc2])]
      simp only [failConversation, emit, emits, putConv, sendToSeller,
        addMessage]
      constructor
      · by_cases hslot : st.currentConversationId = some conv.id <;>
          simp [hslot, alGet_alDel_self]
      · by_cases hslot : st.currentConversationId = some conv.id <;>
          simp [hslot, alGet_alSet_self]
  · intro hcanc hconf hearly hscan
    refine ⟨?_, ?_, ?_⟩
    · intro hc0
      simp only [handleAwaitingCoupon, hearly, hscan]
      rw [if_pos ⟨hcanc, hconf⟩]
      rw [if_pos hc0]
      simp only [emit, putConv, sendToSeller, addMessage]
      exact ⟨by simp [alGet_alSet_self], by simp,
        by simp [alGet_alSet_self]⟩
    · intro hc1
      simp only [handleAwaitingCoupon, hearly, hscan]
      rw [if_pos ⟨hcanc, hconf⟩]
      rw [if_neg (by simp [hc1])]
      rw [if_pos (by simp [hc1])]
      simp only [emit, putConv, sendToSeller, addMessage]
      exact ⟨by simp [alGet_alSet_self], by simp,
        by simp [alGet_alSet_self]⟩
    · intro hc2
      simp only [handleAwaitingCoupon, hearly, hscan]
      rw [if_pos ⟨hcanc, hconf⟩]
      rw [if_neg (by simp [hc2])]
      rw [if_neg (by simp [hc2])]
      simp only [emit, putConv, sendToSeller, addMessage]
      refine ⟨by simp [alGet_alDel_ne, alGet_alDel_self], ?_, by simp⟩
      simp [alGet_alSet_self]
  · intro hcanc hagree havail hclar hprice husn hupi hphone k hk hkpos
    simp only [handleAwaitingPaymentInfo]
    rw [if_neg (by simp [hwait])]
    rw [if_neg (by simp [hcanc])]
    have hcond : 0 < (alGet st.cancelFollowUp conv.id).getD 0 ∧
        (o.analysis.agreesToSale = some true ∨
          o.analysis.available = some true) := by
      rw [hk]
      exact ⟨hkpos, Or.inl hagree⟩
    rw [if_pos hcond]
    rw [if_neg (by simp [hclar])]
    rw [if_neg (by simp [havail])]
    rw [if_neg (by simp [hprice])]
    simp only [husn, hupi, hphone, jsTruthy, Bool.false_eq_true, if_false]
    rw [if_pos (Or.inl hagree)]
    simp only [emit, putConv, sendToSeller, addMessage]
    constructor
    · simp [alGet_alDel_self]
    · simp [alGet_alSet_self]



/-- Witness for the amended C6: a first high-confidence withdrawal in
`AWAITING_PAYMENT_INFO` produces the probe and counter 1; an accepted
withdrawal at level 2 in `AWAITING_COUPON` transitions to
`AWAITING_REFUND` with the refund-requested flag set. -/
theorem C6_cancellation_subprotocol_amended_witness :
    alGet (handleAwaitingPaymentInfo
      { conversations := [("conv1", baseConv)] } baseConv
      "i dont want to sell" oracle6 600).cancelFollowUp "conv1" = some 1 ∧
    (alGet (handleAwaitingCoupon st6c conv6c "i dont want to sell" none
      oracle6 650).conversations "conv1").map (fun c =>
        (c.state, c.refundRequested)) =
      some (ConversationState.AWAITING_REFUND, true) := by
  have h1 := ((C6_cancellation_subprotocol_amended
    { conversations := [("conv1", baseConv)] } baseConv
    "i dont want to sell" oracle6 600 (by decide)).1 rfl
    (by norm_num [oracle6])).1 (by decide)
  have h2 := (((C6_cancellation_subprotocol_amended st6c conv6c
    "i dont want to sell" oracle6 650 (by decide)).2.1 rfl
    (by norm_num [oracle6]) rfl rfl).2.2 (by decide)).2.1
  exact ⟨h1.1, h2⟩

/-! ## Claim C2 — first-resolution-wins for the checkpoint futures -/


theorem contains_filter_ne_self (l : List String) (cid : String) :
    (l.filter (fun r => r ≠ cid)).contains cid = false := by
  simp only [List.contains, List.elem_eq_mem, decide_eq_false_iff_not]
  intro hmem
  have := (List.mem_filter.mp hmem).2
  simp at this

theorem mem_of_contains (l : List String) (a : String)
    (h : l.contains a = true) : a ∈ l := by
  simpa [List.contains, List.elem_eq_mem] using h

theorem userCkStep_inv (convId : String) (s : CkState) (e : UserCkEvent)
    (h : ckInv convId s) : ckInv convId (userCkStep s e) := by
  obtain ⟨hres, hpend, hcalls, hstop⟩ := h
  cases e with
  | confirm convFound =>
      cases hp : s.pending with
      | none =>
          simp only [userCkStep, hp]
          exact ⟨hres, hpend, hcalls, hstop⟩
      | some cid =>
        simp only [userCkStep, hp]
        by_cases hc : s.resolvers.contains cid = true ∧ convFound = true
        · have hcid : cid = convId := hres cid (mem_of_contains _ _ hc.1)
          have hnil : s.calls = [] := by
            by_contra hne
            rw [hcid] at hc
            rw [hstop hne] at hc
            exact absurd hc.1 (by simp)
          rw [if_pos hc]
          refine ⟨?_, Or.inl rfl, ?_, ?_⟩
          · intro r hr
            exact hres r (List.mem_filter.mp hr).1
          · exact Or.inr ⟨true, by rw [hnil, hcid]; rfl⟩
          · intro _
            rw [hcid]
            exact contains_filter_ne_self _ _
        · rw [if_neg hc]
          exact ⟨hres, hpend, hcalls, hstop⟩
  | decline =>
      cases hp : s.pending with
      | none =>
          simp only [userCkStep, hp]
          exact ⟨hres, hpend, hcalls, hstop⟩
      | some cid =>
        simp only [userCkStep, hp]
        by_cases hc : s.resolvers.contains cid = true
        · have hcid : cid = convId := hres cid (mem_of_contains _ _ hc)
          have hnil : s.calls = [] := by
            by_contra hne
            rw [hcid] at hc
            rw [hstop hne] at hc
            exact absurd hc (by simp)
          rw [if_pos hc]
          refine ⟨?_, Or.inl rfl, ?_, ?_⟩
          · intro r hr
            exact hres r (List.mem_filter.mp hr).1
          · exact Or.inr ⟨false, by rw [hnil, hcid]; rfl⟩
          · intro _
            rw [hcid]
            exact contains_filter_ne_self _ _
        · rw [if_neg hc]
          exact ⟨hres, hpend, hcalls, hstop⟩
  | timerFire cid =>
      simp only [userCkStep]
      by_cases hc : s.resolvers.contains cid = true
      · have hcid : cid = convId := hres cid (mem_of_contains _ _ hc)
        have hnil : s.calls = [] := by
          by_contra hne
          rw [hcid] at hc
          rw [hstop hne] at hc
          exact absurd hc (by simp)
        rw [if_pos hc]
        refine ⟨?_, ?_, ?_, ?_⟩
        · intro r hr
          exact hres r (List.mem_filter.mp hr).1
        · by_cases hpc : s.pending = some cid
          · simp [hpc]
          · simp only [hpc, if_neg]
            simpa using hpend
        · exact Or.inr ⟨false, by rw [hnil, hcid]; rfl⟩
        · intro _
          rw [hcid]
          exact contains_filter_ne_self _ _
      · rw [if_neg hc]
        exact ⟨hres, hpend, hcalls, hstop⟩
  | callAlert cid => exact ⟨hres, hpend, hcalls, hstop⟩
  | reset =>
      refine ⟨by simp [userCkStep], Or.inl rfl, hcalls, ?_⟩
      intro _
      simp [userCkStep, List.contains]

theorem payCkStep_inv (convId : String) (s : CkState) (e : PayCkEvent)
    (h : ckInv convId s) : ckInv convId (payCkStep s e) := by
  obtain ⟨hres, hpend, hcalls, hstop⟩ := h
  cases e with
  | confirmPaid =>
      cases hp : s.pending with
      | none =>
          simp only [payCkStep, hp]
          exact ⟨hres, hpend, hcalls, hstop⟩
      | some cid =>
        simp only [payCkStep, hp]
        by_cases hc : s.resolvers.contains cid = true
        · have hcid : cid = convId := hres cid (mem_of_contains _ _ hc)
          have hnil : s.calls = [] := by
            by_contra hne
            rw [hcid] at hc
            rw [hstop hne] at hc
            exact absurd hc (by simp)
          rw [if_pos hc]
          refine ⟨?_, Or.inl rfl, ?_, ?_⟩
          · intro r hr
            exact hres r (List.mem_filter.mp hr).1
          · exact Or.inr ⟨true, by rw [hnil, hcid]; rfl⟩
          · intro _
            rw [hcid]
            exact contains_filter_ne_self _ _
        · rw [if_neg hc]
          exact ⟨hres, hpend, hcalls, hstop⟩
  | cancelPay =>
      cases hp : s.pending with
      | none =>
          simp only [payCkStep, hp]
          exact ⟨hres, hpend, hcalls, hstop⟩
      | some cid =>
        simp only [payCkStep, hp]
        by_cases hc : s.resolvers.contains cid = true
        · have hcid : cid = convId := hres cid (mem_of_contains _ _ hc)
          have hnil : s.calls = [] := by
            by_contra hne
            rw [hcid] at hc
            rw [hstop hne] at hc
            exact absurd hc (by simp)
          rw [if_pos hc]
          refine ⟨?_, Or.inl rfl, ?_, ?_⟩
          · intro r hr
            exact hres r (List.mem_filter.mp hr).1
          · exact Or.inr ⟨false, by rw [hnil, hcid]; rfl⟩
          · intro _
            rw [hcid]
            exact contains_filter_ne_self _ _
        · rw [if_neg hc]
          exact ⟨hres, hpend, hcalls, hstop⟩
  | timerFire cid =>
      simp only [payCkStep]
      by_cases hc : s.resolvers.contains cid = true
      · have hcid : cid = convId := hres cid (mem_of_contains _ _ hc)
        have hnil : s.calls = [] := by
          by_contra hne
          rw [hcid] at hc
          rw [hstop hne] at hc
          exact absurd hc (by simp)
        rw [if_pos hc]
        refine ⟨?_, ?_, ?_, ?_⟩
        · intro r hr
          exact hres r (List.mem_filter.mp hr).1
        · by_cases hpc : s.pending = some cid
          · simp [hpc]
          · simp only [hpc, if_neg]
            simpa using hpend
        · exact Or.inr ⟨false, by rw [hnil, hcid]; rfl⟩
        · intro _
          rw [hcid]
          exact contains_filter_ne_self _ _
      · rw [if_neg hc]
        exact ⟨hres, hpend, hcalls, hstop⟩
  | reset =>
      refine ⟨by simp [payCkStep], Or.inl rfl, hcalls, ?_⟩
      intro _
      simp [payCkStep, List.contains]

theorem userCkStep_settled (convId : String) (s : CkState) (e : UserCkEvent)
    (h : ckInv convId s) (hne : s.calls ≠ []) :
    (userCkStep s e).calls = s.calls := by
  obtain ⟨hres, hpend, hcalls, hstop⟩ := h
  cases e with
  | confirm convFound =>
      cases hp : s.pending with
      | none =>
          simp only [userCkStep, hp]
      | some cid =>
        simp only [userCkStep, hp]
        rw [if_neg]
        intro hc
        have hcid : cid = convId := hres cid (mem_of_contains _ _ hc.1)
        rw [hcid, hstop hne] at hc
        exact absurd hc.1 (by simp)
  | decline =>
      cases hp : s.pending with
      | none =>
          simp only [userCkStep, hp]
      | some cid =>
        simp only [userCkStep, hp]
        rw [if_neg]
        intro hc
        have hcid : cid = convId := hres cid (mem_of_contains _ _ hc)
        rw [hcid, hstop hne] at hc
        exact absurd hc (by simp)
  | timerFire cid =>
      simp only [userCkStep]
      rw [if_neg]
      intro hc
      have hcid : cid = convId := hres cid (mem_of_contains _ _ hc)
      rw [hcid, hstop hne] at hc
      exact absurd hc (by simp)
  | callAlert cid => rfl
  | reset => rfl

theorem payCkStep_settled (convId : String) (s : CkState) (e : PayCkEvent)
    (h : ckInv convId s) (hne : s.calls ≠ []) :
    (payCkStep s e).calls = s.calls := by
  obtain ⟨hres, hpend, hcalls, hstop⟩ := h
  cases e with
  | confirmPaid =>
      cases hp : s.pending with
      | none =>
          simp only [payCkStep, hp]
      | some cid =>
        simp only [payCkStep, hp]
        rw [if_neg]
        intro hc
        have hcid : cid = convId := hres cid (mem_of_contains _ _ hc)
        rw [hcid, hstop hne] at hc
        exact absurd hc (by simp)
  | cancelPay =>
      cases hp : s.pending with
      | none =>
          simp only [payCkStep, hp]
      | some cid =>
        simp only [payCkStep, hp]
        rw [if_neg]
        intro hc
        have hcid : cid = convId := hres cid (mem_of_contains _ _ hc)
        rw [hcid, hstop hne] at hc
        exact absurd hc (by simp)
  | timerFire cid =>
      simp only [payCkStep]
      rw [if_neg]
      intro hc
      have hcid : cid = convId := hres cid (mem_of_contains _ _ hc)
      rw [hcid, hstop hne] at hc
      exact absurd hc (by simp)
  | reset => rfl

theorem userCkRun_inv (convId : String) (s : CkState)
    (evs : List UserCkEvent) (h : ckInv convId s) :
    ckInv convId (userCkRun s evs) := by
  induction evs generalizing s with
  | nil => exact h
  | cons e t ih => exact ih _ (userCkStep_inv convId s e h)

theorem payCkRun_inv (convId : String) (s : CkState)
    (evs : List PayCkEvent) (h : ckInv convId s) :
    ckInv convId (payCkRun s evs) := by
  induction evs generalizing s with
  | nil => exact h
  | cons e t ih => exact ih _ (payCkStep_inv convId s e h)

theorem userCkRun_settled (convId : String) (s : CkState)
    (evs : List UserCkEvent) (h : ckInv convId s) (hne : s.calls ≠ []) :
    (userCkRun s evs).calls = s.calls := by
  induction evs generalizing s with
  | nil => rfl
  | cons e t ih =>
      have h1 := userCkStep_settled convId s e h hne
      have h2 := userCkStep_inv convId s e h
      rw [userCkRun, List.foldl_cons, ← userCkRun]
      rw [ih _ h2 (by rw [h1]; exact hne), h1]

theorem payCkRun_settled (convId : String) (s : CkState)
    (evs : List PayCkEvent) (h : ckInv convId s) (hne : s.calls ≠ []) :
    (payCkRun s evs).calls = s.calls := by
  induction evs generalizing s with
  | nil => rfl
  | cons e t ih =>
      have h1 := payCkStep_settled convId s e h hne
      have h2 := payCkStep_inv convId s e h
      rw [payCkRun, List.foldl_cons, ← payCkRun]
      rw [ih _ h2 (by rw [h1]; exact hne), h1]

theorem ckRegister_inv (convId : String) :
    ckInv convId (ckRegister {} convId) := by
  refine ⟨?_, Or.inr rfl, Or.inl rfl, ?_⟩
  · intro r hr
    simpa [ckRegister, List.contains] using hr
  · intro hne
    exact absurd rfl hne

/-- C2: first-resolution-wins for both human-confirmation checkpoint
futures.  After a future is registered for a conversation, any sequence of
resolution attempts (human channel confirms and declines, the decision
timeout, the escalation call, a logout reset) invokes the resolver at most
once, and once it has been invoked the outcome never changes — further
events, from any channel or timer, are no-ops on the call record.  The
timeout path only ever resolves with `false`, and only when the resolver is
still present (no external resolution occurred first); the escalation call
timer never resolves at all. -/
theorem C2_checkpoint_first_resolution_wins (convId : String)
    (uevs uevs' : List UserCkEvent) (pevs pevs' : List PayCkEvent) :
    ((userCkRun (ckRegister {} convId) uevs).calls.length ≤ 1 ∧
     (∀ c ∈ (userCkRun (ckRegister {} convId) uevs).calls, c.1 = convId) ∧
     ((userCkRun (ckRegister {} convId) uevs).calls ≠ [] →
       (userCkRun (ckRegister {} convId) (uevs ++ uevs')).calls =
         (userCkRun (ckRegister {} convId) uevs).calls)) ∧
    (∀ s : CkState, ∀ cid : String,
      ((userCkStep s (UserCkEvent.timerFire cid)).calls =
        (if s.resolvers.contains cid then s.calls ++ [(cid, false)]
         else s.calls)) ∧
      (userCkStep s (UserCkEvent.callAlert cid)).calls = s.calls) ∧
    ((payCkRun (ckRegister {} convId) pevs).calls.length ≤ 1 ∧
     (∀ c ∈ (payCkRun (ckRegister {} convId) pevs).calls, c.1 = convId) ∧
     ((payCkRun (ckRegister {} convId) pevs).calls ≠ [] →
       (payCkRun (ckRegister {} convId) (pevs ++ pevs')).calls =
         (payCkRun (ckRegister {} convId) pevs).calls)) ∧
    (∀ s : CkState, ∀ cid : String,
      (payCkStep s (PayCkEvent.timerFire cid)).calls =
        (if s.resolvers.contains cid then s.calls ++ [(cid, false)]
         else s.calls)) := by
  have hu := userCkRun_inv convId _ uevs (ckRegister_inv convId)
  have hp := payCkRun_inv convId _ pevs (ckRegister_inv convId)
  refine ⟨⟨?_, ?_, ?_⟩, ?_, ⟨?_, ?_, ?_⟩, ?_⟩
  · rcases hu.2.2.1 with h | ⟨v, h⟩ <;> simp [h]
  · intro c hc
    rcases hu.2.2.1 with h | ⟨v, h⟩
    · rw [h] at hc
      exact absurd hc (by simp)
    · rw [h] at hc
      have := List.mem_singleton.mp hc
      rw [this]
  · intro hne
    rw [userCkRun, List.foldl_append, ← userCkRun, ← userCkRun]
    exact userCkRun_settled convId _ uevs' hu hne
  · intro s cid
    constructor
    · by_cases hc : cid ∈ s.resolvers <;>
        simp [userCkStep, List.contains, hc]
    · rfl
  · rcases hp.2.2.1 with h | ⟨v, h⟩ <;> simp [h]
  · intro c hc
    rcases hp.2.2.1 with h | ⟨v, h⟩
    · rw [h] at hc
      exact absurd hc (by simp)
    · rw [h] at hc
      have := List.mem_singleton.mp hc
      rw [this]
  · intro hne
    rw [payCkRun, List.foldl_append, ← payCkRun, ← payCkRun]
    exact payCkRun_settled convId _ pevs' hp hne
  · intro s cid
    by_cases hc : cid ∈ s.resolvers <;>
      simp [payCkStep, List.contains, hc]

/-- Witness for C2: a confirm followed by a late timeout and a late decline
leaves exactly the single `true` resolution, for both checkpoints. -/
theorem C2_checkpoint_first_resolution_wins_witness :
    (userCkRun (ckRegister {} "conv1")
      ([UserCkEvent.confirm true] ++
        [UserCkEvent.timerFire "conv1", UserCkEvent.decline])).calls =
      (userCkRun (ckRegister {} "conv1") [UserCkEvent.confirm true]).calls ∧
    (payCkRun (ckRegister {} "conv1")
      ([PayCkEvent.confirmPaid] ++ [PayCkEvent.timerFire "conv1"])).calls =
      (payCkRun (ckRegister {} "conv1") [PayCkEvent.confirmPaid]).calls := by
  have h := C2_checkpoint_first_resolution_wins "conv1"
    [UserCkEvent.confirm true] [UserCkEvent.timerFire "conv1",
      UserCkEvent.decline] [PayCkEvent.confirmPaid]
    [PayCkEvent.timerFire "conv1"]
  exact ⟨h.1.2.2 (by decide), h.2.2.1.2.2 (by decide)⟩

end MessBot
